import Mathlib

/-!
Shallow embedding of the MUSCLEMAN deterministic planning core.

JavaScript numbers are modelled as `ℚ` (all arithmetic in the embedded code
is exact decimal arithmetic well within double precision), `Math.round` as
`⌊x + 1/2⌋` (JS rounds halves toward positive infinity, also for negative
numbers), and JS `Date` values as integer day counts (the source only ever
compares and subtracts dates, which is invariant under the millisecond
scaling).  Fallible operations return `Option`/`Except`.
-/

namespace MuscleMan

/-- JavaScript `Math.round`: rounds half-values toward positive infinity. -/
def jsRound (x : ℚ) : ℤ := ⌊x + 1/2⌋

/-- `Math.round(x * 10) / 10`: rounding to one decimal place. -/
def jsRound1 (x : ℚ) : ℚ := (jsRound (x * 10) : ℚ) / 10

/-- ASCII lower-casing, `String.prototype.toLowerCase` on the identifiers used here. -/
def strLower (s : String) : String := String.mk (s.data.map Char.toLower)

/-- Leading-segment test on character lists (helper for `strIncludes`). -/
def charsStartWith : List Char → List Char → Bool
  | _, [] => true
  | [], _ :: _ => false
  | a :: as, b :: bs => a == b && charsStartWith as bs

/-- Substring occurrence test on character lists (helper for `strIncludes`). -/
def charsContainSub (needle : List Char) : List Char → Bool
  | [] => needle.isEmpty
  | c :: rest => charsStartWith (c :: rest) needle || charsContainSub needle rest

/-- JavaScript `String.prototype.includes`. -/
def strIncludes (s fragment : String) : Bool := charsContainSub fragment.data s.data

/-! ### Data model (src/types, `part_004`) -/

inductive Sex
  | male
  | female
deriving DecidableEq

inductive BudgetLevel
  | low
  | medium
  | high
deriving DecidableEq

inductive ProteinPref
  | low
  | medium
  | high
deriving DecidableEq

structure UserPreferences where
  no_oil : Bool
  no_sugar : Bool
  no_fried : Bool
  dislikes : List String
  likes : List String
  avocado_daily_g : ℚ
  nuts_weekly_servings : ℚ
  fish_weekly_servings : ℚ
deriving DecidableEq

structure HealthData where
  ldl : Option ℚ
  hdl : Option ℚ
  tg : Option ℚ
  allergies : List String
  intolerances : List String
deriving DecidableEq

structure Equipment where
  treadmill : Bool
  dumbbells_kg : Option ℚ
  rope : Bool
  mat : Bool
  resistance_bands : Bool
deriving DecidableEq

/-- User profile; `createdAt` is an epoch-day count standing in for the ISO date. -/
structure User where
  id : String
  name : String
  sex : Sex
  age : ℚ
  height_cm : ℚ
  weight_kg : ℚ
  goal_weight_kg : ℚ
  kcal_target : ℚ
  budget_level : BudgetLevel
  preferences : UserPreferences
  health : HealthData
  equipment : Equipment
  createdAt : ℤ
deriving DecidableEq

structure KcalRange where
  min : ℤ
  max : ℤ
  target : ℤ
deriving DecidableEq

structure MacroSplit where
  protein_g : ℤ
  fat_g : ℤ
  carbs_g : ℤ
deriving DecidableEq

structure Metrics where
  bmi : ℚ
  bmr_mifflin : ℤ
  tdee : ℤ
  kcal_range : KcalRange
  macros : MacroSplit
  activity_factor : ℚ
deriving DecidableEq

structure GRange where
  min : ℚ
  max : ℚ

structure KcalPerG where
  protein : ℚ
  fat : ℚ
  carbs : ℚ
  fiber : ℚ

structure MacroRatioTable where
  PROTEIN_G_PER_KG : GRange
  FAT_G_PER_KG : GRange
  KCAL_PER_G : KcalPerG

/-- `MACRO_RATIOS` constant from the types module. -/
def MACRO_RATIOS : MacroRatioTable :=
  { PROTEIN_G_PER_KG := { min := 1.6, max := 2.2 }
    FAT_G_PER_KG := { min := 0.6, max := 0.8 }
    KCAL_PER_G := { protein := 4, fat := 9, carbs := 4, fiber := 2 } }

/-! ### Metrics calculator (`src/utils/calculators.ts`) -/

/-- `calculateBMI`: weight / height², rounded to one decimal. -/
def calculateBMI (weight_kg height_cm : ℚ) : ℚ :=
  let height_m := height_cm / 100
  jsRound1 (weight_kg / (height_m * height_m))

/-- `calculateBMR_Mifflin` (Mifflin–St Jeor). -/
def calculateBMR_Mifflin (sex : Sex) (weight_kg height_cm age : ℚ) : ℤ :=
  let base := 10 * weight_kg + 6.25 * height_cm - 5 * age
  let adjustment : ℚ := if sex = Sex.male then 5 else -161
  jsRound (base + adjustment)

/-- `calculateTDEE`. -/
def calculateTDEE (bmr activity_factor : ℚ) : ℤ :=
  jsRound (bmr * activity_factor)

/-- `calculateKcalRange`: deficit/surplus tiers plus sex-specific safety floors. -/
def calculateKcalRange (tdee goal_weight_kg current_weight_kg : ℚ) (sex : Sex) :
    KcalRange :=
  let weight_diff := goal_weight_kg - current_weight_kg
  let min_safe_kcal : ℤ := if sex = Sex.male then 1500 else 1200
  let deficit_pct : ℚ :=
    if weight_diff < -5 then 0.225
    else if weight_diff < 0 then 0.15
    else if weight_diff > 5 then -0.125
    else if weight_diff > 0 then -0.075
    else 0
  let target := jsRound (tdee * (1 - deficit_pct))
  let safe_target := max target min_safe_kcal
  { min := max (jsRound ((safe_target : ℚ) * 0.95)) min_safe_kcal
    max := jsRound ((safe_target : ℚ) * 1.05)
    target := safe_target }

/-- `calculateMacros`: protein by preference, fat at the low end, carbs from the rest. -/
def calculateMacros (kcal_target goal_weight_kg : ℚ) (preference_protein : ProteinPref) :
    MacroSplit :=
  let proteinPerKg : ℚ :=
    match preference_protein with
    | ProteinPref.low => MACRO_RATIOS.PROTEIN_G_PER_KG.min
    | ProteinPref.high => MACRO_RATIOS.PROTEIN_G_PER_KG.max
    | ProteinPref.medium =>
        (MACRO_RATIOS.PROTEIN_G_PER_KG.min + MACRO_RATIOS.PROTEIN_G_PER_KG.max) / 2
  let protein_g := jsRound (goal_weight_kg * proteinPerKg)
  let fat_g := jsRound (goal_weight_kg * MACRO_RATIOS.FAT_G_PER_KG.min)
  let protein_kcal := (protein_g : ℚ) * MACRO_RATIOS.KCAL_PER_G.protein
  let fat_kcal := (fat_g : ℚ) * MACRO_RATIOS.KCAL_PER_G.fat
  let remaining_kcal := kcal_target - protein_kcal - fat_kcal
  let carbs_g := max 0 (jsRound (remaining_kcal / MACRO_RATIOS.KCAL_PER_G.carbs))
  { protein_g := protein_g, fat_g := fat_g, carbs_g := carbs_g }

/-- `calculateAllMetrics`: the composite metrics record. -/
def calculateAllMetrics (user : User) (activity_factor : ℚ) : Metrics :=
  let bmi := calculateBMI user.weight_kg user.height_cm
  let bmr := calculateBMR_Mifflin user.sex user.weight_kg user.height_cm user.age
  let tdee := calculateTDEE (bmr : ℚ) activity_factor
  let kcal_range := calculateKcalRange (tdee : ℚ) user.goal_weight_kg user.weight_kg user.sex
  let macros := calculateMacros (kcal_range.target : ℚ) user.goal_weight_kg ProteinPref.medium
  { bmi := bmi, bmr_mifflin := bmr, tdee := tdee, kcal_range := kcal_range
    macros := macros, activity_factor := activity_factor }

inductive ExerciseKind
  | run
  | hiit
  | strength
  | walk
deriving DecidableEq

inductive Intensity
  | low
  | medium
  | high
deriving DecidableEq

/-- `calculateExerciseCalories`: METs × weight × hours (every table entry is defined,
so the JS `|| 5` fallback is dead). -/
def calculateExerciseCalories (kind : ExerciseKind) (duration_min weight_kg : ℚ)
    (intensity : Intensity) : ℤ :=
  let met_value : ℚ :=
    match kind, intensity with
    | ExerciseKind.run, Intensity.low => 6
    | ExerciseKind.run, Intensity.medium => 8
    | ExerciseKind.run, Intensity.high => 10
    | ExerciseKind.hiit, Intensity.low => 8
    | ExerciseKind.hiit, Intensity.medium => 10
    | ExerciseKind.hiit, Intensity.high => 12
    | ExerciseKind.strength, Intensity.low => 3
    | ExerciseKind.strength, Intensity.medium => 5
    | ExerciseKind.strength, Intensity.high => 6
    | ExerciseKind.walk, Intensity.low => 2.5
    | ExerciseKind.walk, Intensity.medium => 3.5
    | ExerciseKind.walk, Intensity.high => 4.5
  jsRound (met_value * weight_kg * (duration_min / 60))

/-! ### Recipes and meal plans (data model) -/

inductive RecipeTag
  | sin_aceite
  | sin_azucar
  | budget
  | alta_prote
  | batch_cooking
  | rapida
  | social
  | colesterol_friendly
  | vegetal
  | bajo_sodio
deriving DecidableEq

inductive MealType
  | desayuno
  | almuerzo
  | colacion
  | cena
  | post_entreno
deriving DecidableEq

structure RecipeIngredient where
  food_id : String
  grams : ℚ
deriving DecidableEq

structure PerPortion where
  kcal : ℚ
  protein : ℚ
  fat : ℚ
  carbs : ℚ
  fiber : ℚ
deriving DecidableEq

structure Recipe where
  id : String
  name : String
  category : MealType
  tags : List RecipeTag
  ingredients : List RecipeIngredient
  per_portion : PerPortion
  portions : ℚ
  prep_time_min : ℚ
  cooking_time_min : ℚ
  cost_estimate : Option ℚ
deriving DecidableEq

structure Meal where
  type : MealType
  recipe_id : String
  portions : ℚ
  time_scheduled : String
  completed : Bool
deriving DecidableEq

structure DayTotals where
  kcal : ℚ
  protein : ℚ
  fat : ℚ
  carbs : ℚ
  fiber : ℚ
deriving DecidableEq

structure MealPlanDay where
  id : String
  user_id : String
  date : String
  meals : List Meal
  totals : DayTotals
  adherence : Option ℚ
  notes : String
deriving DecidableEq

/-! ### Meal plan generator (second document of `src/utils/calculators.ts`) -/

/-- Day template: the calorie distribution keeps the object literal's insertion
order, which is the order `Object.entries` iterates in. -/
structure DayTemplate where
  id : String
  name : String
  has_breakfast : Bool
  has_snack : Bool
  has_fasting : Bool
  kcal_distribution : List (MealType × ℚ)

def normalDayTemplate : DayTemplate :=
  { id := "normal_day", name := "Dia normal"
    has_breakfast := true, has_snack := true, has_fasting := false
    kcal_distribution :=
      [(MealType.desayuno, 0.18), (MealType.almuerzo, 0.35), (MealType.colacion, 0.15),
       (MealType.cena, 0.27), (MealType.post_entreno, 0.05)] }

def fastingMorningTemplate : DayTemplate :=
  { id := "fasting_morning", name := "Ayuno mananero"
    has_breakfast := false, has_snack := true, has_fasting := true
    kcal_distribution :=
      [(MealType.almuerzo, 0.40), (MealType.colacion, 0.20), (MealType.cena, 0.35),
       (MealType.post_entreno, 0.05)] }

def simple3MealsTemplate : DayTemplate :=
  { id := "simple_3_meals", name := "Tres comidas simples"
    has_breakfast := true, has_snack := false, has_fasting := false
    kcal_distribution :=
      [(MealType.desayuno, 0.25), (MealType.almuerzo, 0.40), (MealType.cena, 0.35)] }

def DAY_TEMPLATES : List DayTemplate :=
  [normalDayTemplate, fastingMorningTemplate, simple3MealsTemplate]

structure PersonalizationRules where
  no_oil : Bool
  no_sugar : Bool
  no_fried : Bool
  budget_priority : Bool
  cholesterol_friendly : Bool
  high_protein : Bool
  batch_cooking : Bool
  excluded_ingredients : List String
  preferred_ingredients : List String
  max_prep_time : Option ℚ
deriving DecidableEq

/-- `generatePersonalizationRules`. -/
def generatePersonalizationRules (user : User) : PersonalizationRules :=
  { no_oil := user.preferences.no_oil
    no_sugar := user.preferences.no_sugar
    no_fried := user.preferences.no_fried
    budget_priority := user.budget_level = BudgetLevel.low
    cholesterol_friendly :=
      match user.health.ldl with
      | some l => decide (l > 130)
      | none => false
    high_protein := decide (user.goal_weight_kg < user.weight_kg)
    batch_cooking := user.preferences.likes.contains "batch_cooking"
    excluded_ingredients := user.preferences.dislikes
    preferred_ingredients := user.preferences.likes
    max_prep_time := if user.budget_level = BudgetLevel.low then some 30 else none }

/-- `selectDayTemplate`. -/
def selectDayTemplate (user : User) (rules : PersonalizationRules) : DayTemplate :=
  if user.preferences.likes.contains "ayuno_intermitente" then
    (DAY_TEMPLATES.find? (fun t => t.id == "fasting_morning")).getD normalDayTemplate
  else if rules.budget_priority && !rules.batch_cooking then
    (DAY_TEMPLATES.find? (fun t => t.id == "simple_3_meals")).getD normalDayTemplate
  else
    normalDayTemplate

/-- `filterRecipesByRules`: hard elimination by category, mandatory no-oil/no-sugar
tags, excluded ingredients (substring match on lower-cased food ids) and the
budget-tier preparation-time cap (a JS truthiness test on `max_prep_time`). -/
def filterRecipesByRules (recipes : List Recipe) (rules : PersonalizationRules)
    (category : Option MealType) : List Recipe :=
  recipes.filter fun recipe =>
    let catOk :=
      match category with
      | some c => recipe.category == c
      | none => true
    let oilOk := !(rules.no_oil && !(recipe.tags.contains RecipeTag.sin_aceite))
    let sugarOk := !(rules.no_sugar && !(recipe.tags.contains RecipeTag.sin_azucar))
    let hasExcludedIngredient := rules.excluded_ingredients.any fun excluded =>
      recipe.ingredients.any fun ing => strIncludes ing.food_id (strLower excluded)
    let timeOk :=
      match rules.max_prep_time with
      | some t => !(decide (t ≠ 0) && decide (recipe.prep_time_min + recipe.cooking_time_min > t))
      | none => true
    catOk && oilOk && sugarOk && !hasExcludedIngredient && timeOk

/-- `scoreRecipe`: tag bonuses, liked-ingredient bonus and the budget-mode cost
penalty.  The recipe's calories do not appear anywhere in the score. -/
def scoreRecipe (recipe : Recipe) (rules : PersonalizationRules) : ℤ :=
  (if rules.budget_priority && recipe.tags.contains RecipeTag.budget then 3 else 0)
    + (if rules.cholesterol_friendly && recipe.tags.contains RecipeTag.colesterol_friendly
        then 2 else 0)
    + (if rules.high_protein && recipe.tags.contains RecipeTag.alta_prote then 2 else 0)
    + (if rules.batch_cooking && recipe.tags.contains RecipeTag.batch_cooking then 1 else 0)
    + (if recipe.tags.contains RecipeTag.rapida then 1 else 0)
    + (if rules.preferred_ingredients.any (fun preferred =>
          recipe.ingredients.any fun ing => strIncludes ing.food_id (strLower preferred))
        then 1 else 0)
    - (if rules.budget_priority &&
          (match recipe.cost_estimate with
           | some c => decide (c > 1500)
           | none => false)
        then 2 else 0)

structure ScoredRecipe where
  recipe : Recipe
  score : ℤ
  kcalDiff : ℚ

/-- The JS sort comparator of `selectRecipeForCalories` as a non-strict order:
`a` may come before `b` when its score is larger, or scores tie and its calorie
deviation is not larger. -/
def scoredLE (a b : ScoredRecipe) : Bool :=
  decide (b.score < a.score) || (decide (a.score = b.score) && decide (a.kcalDiff ≤ b.kcalDiff))

/-- The candidate pool of `selectRecipeForCalories`: recipes within the calorie
tolerance when any exist, otherwise the full filtered list. -/
def recipePool (availableRecipes : List Recipe) (targetKcal tolerance : ℚ) : List Recipe :=
  if (availableRecipes.filter fun recipe =>
      decide (|recipe.per_portion.kcal - targetKcal| / targetKcal ≤ tolerance)).isEmpty then
    availableRecipes
  else
    availableRecipes.filter fun recipe =>
      decide (|recipe.per_portion.kcal - targetKcal| / targetKcal ≤ tolerance)

/-- `selectRecipeForCalories`: score the pool, sort by the comparator
(score descending, then calorie deviation ascending) and take the head. -/
def selectRecipeForCalories (availableRecipes : List Recipe) (targetKcal : ℚ)
    (rules : PersonalizationRules) (tolerance : ℚ) : Option Recipe :=
  if availableRecipes.isEmpty then none
  else
    let recipesToScore := recipePool availableRecipes targetKcal tolerance
    let scoredRecipes := (recipesToScore.map fun recipe =>
      { recipe := recipe, score := scoreRecipe recipe rules
        kcalDiff := |recipe.per_portion.kcal - targetKcal| : ScoredRecipe }).mergeSort scoredLE
    match scoredRecipes.head? with
    | some e => some e.recipe
    | none => none

/-- `adjustPortionsForCalories`.  When `per_portion.kcal = 0` and the target is
positive, JS computes `Infinity` and the clamp yields `maxPortion`; the remaining
division-by-zero case (target 0) never occurs in the generator. -/
def adjustPortionsForCalories (recipe : Recipe) (targetKcal maxPortion : ℚ) : ℚ × ℤ :=
  let baseKcal := recipe.per_portion.kcal
  let clamped : ℚ :=
    if baseKcal = 0 ∧ 0 < targetKcal then maxPortion
    else max 0.5 (min maxPortion (targetKcal / baseKcal))
  let portions := (jsRound (clamped * 4) : ℚ) / 4
  let adjustedKcal := jsRound (baseKcal * portions)
  (portions, adjustedKcal)

/-- `getScheduledTime`; all five meal types are in the table, so the JS
`|| '12:00'` fallback is dead. -/
def getScheduledTime (mealType : MealType) : String :=
  match mealType with
  | MealType.desayuno => "08:00"
  | MealType.almuerzo => "13:00"
  | MealType.colacion => "16:00"
  | MealType.cena => "20:00"
  | MealType.post_entreno => "18:30"

/-- `post_entreno` slots draw from `colacion` recipes. -/
def mealCategoryForFilter (t : MealType) : MealType :=
  if t = MealType.post_entreno then MealType.colacion else t

/-- The outcome of one meal slot of the generation loop. -/
structure SlotPick where
  mealType : MealType
  recipe : Recipe
  portions : ℚ
  adjustedKcal : ℤ

/-- Body of the per-slot generation loop: filter, select, scale. -/
def mealSlotResult (recipes : List Recipe) (rules : PersonalizationRules)
    (targetKcal : ℚ) (slot : MealType × ℚ) : Option SlotPick :=
  let mealTargetKcal := jsRound (targetKcal * slot.2)
  let availableRecipes :=
    filterRecipesByRules recipes rules (some (mealCategoryForFilter slot.1))
  match selectRecipeForCalories availableRecipes (mealTargetKcal : ℚ) rules 0.15 with
  | none => none
  | some r =>
    let pa := adjustPortionsForCalories r (mealTargetKcal : ℚ) 2
    some { mealType := slot.1, recipe := r, portions := pa.1, adjustedKcal := pa.2 }

/-- The `Meal` record pushed for one slot pick. -/
def toMeal (pick : SlotPick) : Meal :=
  { type := pick.mealType, recipe_id := pick.recipe.id, portions := pick.portions
    time_scheduled := getScheduledTime pick.mealType, completed := false }

/-- Accumulator of the generation loop (meal list plus running totals). -/
structure GenAcc where
  meals : List Meal
  totalKcal : ℚ
  totalProtein : ℚ
  totalFat : ℚ
  totalCarbs : ℚ
  totalFiber : ℚ

/-- One iteration of the generation loop over a meal slot. -/
def genStep (recipes : List Recipe) (rules : PersonalizationRules) (targetKcal : ℚ)
    (acc : GenAcc) (slot : MealType × ℚ) : GenAcc :=
  match mealSlotResult recipes rules targetKcal slot with
  | none => acc
  | some pick =>
    { meals := acc.meals ++ [toMeal pick]
      totalKcal := acc.totalKcal + (pick.adjustedKcal : ℚ)
      totalProtein := acc.totalProtein + (jsRound (pick.recipe.per_portion.protein * pick.portions) : ℚ)
      totalFat := acc.totalFat + (jsRound (pick.recipe.per_portion.fat * pick.portions) : ℚ)
      totalCarbs := acc.totalCarbs + (jsRound (pick.recipe.per_portion.carbs * pick.portions) : ℚ)
      totalFiber := acc.totalFiber + (jsRound (pick.recipe.per_portion.fiber * pick.portions) : ℚ) }

/-- `generateDailyMealPlan`: template-driven slot loop, aggregation, and the
zero-meals failure.  No statement in the loop can throw, so the source's
`try`/`catch` wrapper is inert. -/
def generateDailyMealPlan (user : User) (recipes : List Recipe) (date : String)
    (activityFactor : ℚ) : Option MealPlanDay :=
  let metrics := calculateAllMetrics user activityFactor
  let rules := generatePersonalizationRules user
  let template := selectDayTemplate user rules
  let targetKcal : ℚ := (metrics.kcal_range.target : ℚ)
  let res := template.kcal_distribution.foldl (genStep recipes rules targetKcal)
    { meals := [], totalKcal := 0, totalProtein := 0, totalFat := 0
      totalCarbs := 0, totalFiber := 0 }
  if res.meals.isEmpty then none
  else
    some { id := user.id ++ "_" ++ date, user_id := user.id, date := date
           meals := res.meals
           totals := { kcal := res.totalKcal, protein := res.totalProtein
                       fat := res.totalFat, carbs := res.totalCarbs, fiber := res.totalFiber }
           adherence := some 0
           notes := "Plan generado con plantilla: " ++ template.name }

structure ValidationResult where
  valid : Bool
  issues : List String
deriving DecidableEq

/-- `validateMealPlan`: flags a calorie deviation above 15% and a protein
deviation above 20% (both relative and two-sided); the issue strings carry
interpolated numbers in the source and are modelled by fixed labels. -/
def validateMealPlan (plan : MealPlanDay) (user : User) (activityFactor : ℚ) :
    ValidationResult :=
  let metrics := calculateAllMetrics user activityFactor
  let kcalDeviation :=
    |plan.totals.kcal - (metrics.kcal_range.target : ℚ)| / (metrics.kcal_range.target : ℚ)
  let proteinDeviation :=
    |plan.totals.protein - (metrics.macros.protein_g : ℚ)| / (metrics.macros.protein_g : ℚ)
  let issues :=
    (if kcalDeviation > 0.15 then ["Calorias fuera de rango"] else [])
      ++ (if proteinDeviation > 0.20 then ["Proteina insuficiente"] else [])
  { valid := issues.isEmpty, issues := issues }

/-! ### Workout data model (src/types) -/

inductive BlockType
  | run
  | hiit
  | strength
  | warmup
  | cooldown
deriving DecidableEq

inductive RunKind
  | continuous
  | intervals
deriving DecidableEq

structure RunDetails where
  distance_km : Option ℚ
  speed_kmh : ℚ
  incline : Option ℚ
  type : RunKind
deriving DecidableEq

structure HIITDetails where
  work_sec : ℚ
  rest_sec : ℚ
  rounds : ℚ
  exercises : List String
deriving DecidableEq

/-- `reps` can be a number, `'AMRAP'` or `'time'`. -/
inductive RepSpec
  | num (n : ℚ)
  | amrap
  | time
deriving DecidableEq

structure StrengthExercise where
  name : String
  sets : ℚ
  reps : RepSpec
  weight_kg : Option ℚ
  duration_sec : Option ℚ
  rest_sec : ℚ
deriving DecidableEq

structure StrengthDetails where
  exercises : List StrengthExercise
deriving DecidableEq

structure BasicDetails where
  description : String
  intensity : Option Intensity
deriving DecidableEq

inductive BlockDetails
  | run (d : RunDetails)
  | hiit (d : HIITDetails)
  | strength (d : StrengthDetails)
  | basic (d : BasicDetails)
deriving DecidableEq

/-- A template block (`Omit<WorkoutBlock, 'kcal_estimate'>`). -/
structure TemplateBlock where
  type : BlockType
  name : String
  details : BlockDetails
  duration_min : ℚ
deriving DecidableEq

structure WorkoutBlock where
  type : BlockType
  name : String
  details : BlockDetails
  duration_min : ℚ
  kcal_estimate : ℤ
deriving DecidableEq

structure WorkoutPlanDay where
  id : String
  user_id : String
  date : String
  blocks : List WorkoutBlock
  duration_min : ℚ
  kcal_estimate : ℤ
  completed : Bool
  rpe : Option ℚ
  notes : String
deriving DecidableEq

/-- Personal records; `updated_at` as an epoch-day count. -/
structure PersonalRecords where
  user_id : String
  pushups_max : ℚ
  abs_max : ℚ
  plank_sec : ℚ
  run_speed_kmh : ℚ
  run_duration_min : ℚ
  updated_at : ℤ
deriving DecidableEq

/-! ### Progress tracking engine (`src/utils/progressTracking.ts`) -/

/-- Measurement snapshot; `date` as an epoch-day count (time differences in the
source are millisecond differences, a positive scaling of day differences). -/
structure Measurement where
  id : String
  user_id : String
  date : ℤ
  weight_kg : ℚ
deriving DecidableEq

/-- A progress suggestion; the interpolated message text and the clock timestamp
are presentation-only and omitted. -/
structure ProgressSuggestion where
  rule_id : String
  action_required : Bool
  auto_applied : Bool
deriving DecidableEq

inductive WeightTrend
  | fast_loss
  | normal_loss
  | slow_loss
  | maintenance
  | gain
deriving DecidableEq

structure WeeklyProgressAnalysis where
  weight_change_pct : ℚ
  weight_trend : WeightTrend
  adherence_score : ℚ
  protein_compliance : ℤ
  avg_rpe : ℚ
  kcal_adjustment_needed : Bool
  volume_adjustment_needed : Bool
  suggestions : List ProgressSuggestion
deriving DecidableEq

/-- `calculateWeeklyWeightChange`: percentage change between the latest
measurement and the one closest to `weeksBack` weeks before it, rounded to one
decimal. -/
def calculateWeeklyWeightChange (measurements : List Measurement) (weeksBack : ℤ) : ℚ :=
  if measurements.length < 2 then 0
  else
    match measurements.mergeSort (fun a b => decide (a.date ≤ b.date)) with
    | [] => 0
    | first :: rest =>
      let latest := (first :: rest).getLastD first
      let targetDate := latest.date - weeksBack * 7
      let closest := (first :: rest).foldl
        (fun acc m => if |m.date - targetDate| < |acc.date - targetDate| then m else acc) first
      if closest.weight_kg = latest.weight_kg then 0
      else jsRound1 ((latest.weight_kg - closest.weight_kg) / closest.weight_kg * 100)

/-- `calculateMealPlanAdherence`: average percentage of completed meals over the
plans that have any meals. -/
def calculateMealPlanAdherence (mealPlans : List MealPlanDay) : ℚ :=
  if mealPlans.length = 0 then 0
  else
    let acc := mealPlans.foldl
      (fun (acc : ℚ × ℕ) plan =>
        if plan.meals.length > 0 then
          (acc.1 + ((plan.meals.filter fun m => m.completed).length : ℚ)
              / (plan.meals.length : ℚ) * 100,
            acc.2 + 1)
        else acc)
      (0, 0)
    if acc.2 > 0 then (jsRound (acc.1 / (acc.2 : ℚ)) : ℚ) else 0

/-- `calculateProteinCompliance`: days with adherence ≥ 70 and protein at 90% of
target (the `plan.adherence || ...` is a JS truthiness fallback). -/
def calculateProteinCompliance (mealPlans : List MealPlanDay) (user : User) (af : ℚ) : ℤ :=
  if mealPlans.length = 0 then 0
  else
    let metrics := calculateAllMetrics user af
    let proteinTarget : ℚ := (metrics.macros.protein_g : ℚ)
    mealPlans.foldl
      (fun count plan =>
        let adherence :=
          match plan.adherence with
          | some a => if a ≠ 0 then a else calculateMealPlanAdherence [plan]
          | none => calculateMealPlanAdherence [plan]
        if adherence ≥ 70 ∧ plan.totals.protein ≥ proteinTarget * 0.9 then count + 1 else count)
      0

/-- `calculateAverageRPE` over completed workouts with a (truthy) RPE. -/
def calculateAverageRPE (workouts : List WorkoutPlanDay) : ℚ :=
  let completedWorkouts := workouts.filter fun w =>
    w.completed && (match w.rpe with | some r => decide (r ≠ 0) | none => false)
  if completedWorkouts.length = 0 then 0
  else jsRound1 ((completedWorkouts.map fun w => w.rpe.getD 0).sum
    / (completedWorkouts.length : ℚ))

/-- `detectPerformanceImprovements`: at least 2 of the 5 marks improved. -/
def detectPerformanceImprovements (currentRecords : PersonalRecords)
    (previousRecords : Option PersonalRecords) : Bool :=
  match previousRecords with
  | none => false
  | some prev =>
    decide (2 ≤ ([decide (currentRecords.pushups_max > prev.pushups_max),
        decide (currentRecords.abs_max > prev.abs_max),
        decide (currentRecords.plank_sec > prev.plank_sec),
        decide (currentRecords.run_speed_kmh > prev.run_speed_kmh),
        decide (currentRecords.run_duration_min > prev.run_duration_min)].filter
          fun b => b).length)

/-- Trend classification of `analyzeWeeklyProgress`: the slow-loss two-week
override applied on top of the threshold chain. -/
def classifyWeightTrend (weight_change_pct twoWeekChange : ℚ) : WeightTrend :=
  if weight_change_pct ≥ -0.25 ∧ weight_change_pct < 0 ∧ twoWeekChange ≥ -0.5 then
    WeightTrend.slow_loss
  else if weight_change_pct < -1 then WeightTrend.fast_loss
  else if weight_change_pct < -0.25 then WeightTrend.normal_loss
  else if weight_change_pct < 0.25 then WeightTrend.maintenance
  else WeightTrend.gain

/-- `analyzeWeeklyProgress`: trend classification and the rule-based suggestion
list, in the source's push order. -/
def analyzeWeeklyProgress (user : User) (measurements : List Measurement)
    (mealPlans : List MealPlanDay) (workouts : List WorkoutPlanDay)
    (currentRecords : PersonalRecords) (previousRecords : Option PersonalRecords)
    (af : ℚ) : WeeklyProgressAnalysis :=
  let weight_change_pct := calculateWeeklyWeightChange measurements 1
  let adherence_score := calculateMealPlanAdherence mealPlans
  let protein_compliance := calculateProteinCompliance mealPlans user af
  let avg_rpe := calculateAverageRPE workouts
  let performance_improved := detectPerformanceImprovements currentRecords previousRecords
  let weight_trend :=
    classifyWeightTrend weight_change_pct (calculateWeeklyWeightChange measurements 2)
  let rule1 : Prop := weight_trend = WeightTrend.fast_loss ∧ user.goal_weight_kg < user.weight_kg
  let rule2 : Prop := weight_trend = WeightTrend.slow_loss ∧ user.goal_weight_kg < user.weight_kg
  let rule3 : Prop := protein_compliance < (mealPlans.length : ℤ) - 3
  let rule4 : Prop := avg_rpe ≥ 8 ∧
    3 ≤ (workouts.filter fun w => w.completed && decide (w.rpe.getD 0 ≥ 8)).length
  let suggestions : List ProgressSuggestion :=
    (if rule1 then [{ rule_id := "weight_loss_too_fast", action_required := true, auto_applied := false }] else [])
    ++ (if rule2 then [{ rule_id := "weight_loss_too_slow", action_required := true, auto_applied := false }] else [])
    ++ (if rule3 then [{ rule_id := "protein_insufficient", action_required := true, auto_applied := false }] else [])
    ++ (if rule4 then [{ rule_id := "rpe_too_high", action_required := true, auto_applied := false }] else [])
    ++ (if performance_improved then [{ rule_id := "performance_improved", action_required := false, auto_applied := true }] else [])
    ++ (if adherence_score < 70 then [{ rule_id := "low_adherence", action_required := true, auto_applied := false }]
        else if adherence_score ≥ 90 then [{ rule_id := "excellent_adherence", action_required := false, auto_applied := false }]
        else [])
  { weight_change_pct := weight_change_pct
    weight_trend := weight_trend
    adherence_score := adherence_score
    protein_compliance := protein_compliance
    avg_rpe := avg_rpe
    kcal_adjustment_needed := decide rule1 || decide rule2
    volume_adjustment_needed := decide rule4 || performance_improved
    suggestions := suggestions }

/-! ### Workout plan generator (second document of `src/utils/googleCalendar.ts`) -/

inductive FitnessLevel
  | beginner
  | intermediate
  | advanced
deriving DecidableEq

inductive WorkoutType
  | run
  | hiit
  | strength
  | mixed
deriving DecidableEq

inductive EquipKey
  | treadmill
  | dumbbells_kg
  | rope
  | mat
  | resistance_bands
deriving DecidableEq

structure WorkoutTemplate where
  id : String
  name : String
  type : WorkoutType
  duration_min : ℚ
  required_equipment : List EquipKey
  fitness_level : List FitnessLevel
  blocks : List TemplateBlock
deriving DecidableEq

/-- The fixed `WORKOUT_TEMPLATES` catalog. -/
def WORKOUT_TEMPLATES : List WorkoutTemplate :=
  [{ id := "hiit_short", name := "HIIT corto (20-25 min)", type := WorkoutType.hiit
     duration_min := 23, required_equipment := [EquipKey.treadmill]
     fitness_level := [FitnessLevel.beginner, FitnessLevel.intermediate, FitnessLevel.advanced]
     blocks :=
       [{ type := BlockType.warmup, name := "Calentamiento"
          details := BlockDetails.basic
            { description := "Caminar 5 minutos a ritmo moderado", intensity := some Intensity.low }
          duration_min := 5 },
        { type := BlockType.run, name := "Base aerobica"
          details := BlockDetails.run
            { distance_km := none, speed_kmh := 6, incline := none, type := RunKind.continuous }
          duration_min := 10 },
        { type := BlockType.hiit, name := "Intervalos HIIT"
          details := BlockDetails.hiit
            { work_sec := 60, rest_sec := 240, rounds := 2, exercises := ["Correr 12 km/h"] }
          duration_min := 8 }] },
   { id := "run_continuous", name := "Cardio continuo (30-40 min)", type := WorkoutType.run
     duration_min := 35, required_equipment := [EquipKey.treadmill]
     fitness_level := [FitnessLevel.intermediate, FitnessLevel.advanced]
     blocks :=
       [{ type := BlockType.warmup, name := "Calentamiento"
          details := BlockDetails.basic
            { description := "Caminar 5 minutos a ritmo lento", intensity := some Intensity.low }
          duration_min := 5 },
        { type := BlockType.run, name := "Carrera continua"
          details := BlockDetails.run
            { distance_km := none, speed_kmh := 8, incline := none, type := RunKind.continuous }
          duration_min := 25 },
        { type := BlockType.cooldown, name := "Enfriamiento"
          details := BlockDetails.basic
            { description := "Caminar y estirar 5 minutos", intensity := some Intensity.low }
          duration_min := 5 }] },
   { id := "strength_bodyweight", name := "Fuerza casa (20-25 min)", type := WorkoutType.strength
     duration_min := 23, required_equipment := [EquipKey.mat]
     fitness_level := [FitnessLevel.beginner, FitnessLevel.intermediate, FitnessLevel.advanced]
     blocks :=
       [{ type := BlockType.warmup, name := "Calentamiento dinamico"
          details := BlockDetails.basic
            { description := "Movilidad articular y activacion", intensity := some Intensity.low }
          duration_min := 3 },
        { type := BlockType.strength, name := "Circuito principal"
          details := BlockDetails.strength
            { exercises :=
                [{ name := "Flexiones", sets := 3, reps := RepSpec.amrap
                   weight_kg := none, duration_sec := none, rest_sec := 90 },
                 { name := "Abdominales", sets := 3, reps := RepSpec.num 30
                   weight_kg := none, duration_sec := none, rest_sec := 60 },
                 { name := "Plancha", sets := 3, reps := RepSpec.time
                   weight_kg := none, duration_sec := some 45, rest_sec := 60 }] }
          duration_min := 15 },
        { type := BlockType.run, name := "Cuerda (cardio)"
          details := BlockDetails.run
            { distance_km := none, speed_kmh := 0, incline := none, type := RunKind.intervals }
          duration_min := 5 }] },
   { id := "strength_dumbbells", name := "Fuerza con mancuernas", type := WorkoutType.mixed
     duration_min := 25, required_equipment := [EquipKey.dumbbells_kg, EquipKey.treadmill]
     fitness_level := [FitnessLevel.intermediate, FitnessLevel.advanced]
     blocks :=
       [{ type := BlockType.warmup, name := "Calentamiento"
          details := BlockDetails.basic
            { description := "Movilidad con peso corporal", intensity := some Intensity.low }
          duration_min := 5 },
        { type := BlockType.strength, name := "Shadow boxing"
          details := BlockDetails.strength
            { exercises :=
                [{ name := "Shadow boxing con mancuernas", sets := 3, reps := RepSpec.time
                   weight_kg := none, duration_sec := some 120, rest_sec := 60 }] }
          duration_min := 10 },
        { type := BlockType.run, name := "Farmer walk en trotadora"
          details := BlockDetails.run
            { distance_km := none, speed_kmh := 5, incline := none, type := RunKind.continuous }
          duration_min := 10 }] },
   { id := "beginner_basic", name := "Rutina basica principiante", type := WorkoutType.mixed
     duration_min := 20, required_equipment := [EquipKey.mat]
     fitness_level := [FitnessLevel.beginner]
     blocks :=
       [{ type := BlockType.warmup, name := "Calentamiento suave"
          details := BlockDetails.basic
            { description := "Caminar en el lugar y estiramientos suaves"
              intensity := some Intensity.low }
          duration_min := 5 },
        { type := BlockType.strength, name := "Ejercicios basicos"
          details := BlockDetails.strength
            { exercises :=
                [{ name := "Flexiones (modificadas si es necesario)", sets := 2
                   reps := RepSpec.num 10, weight_kg := none, duration_sec := none, rest_sec := 90 },
                 { name := "Sentadillas", sets := 2, reps := RepSpec.num 15
                   weight_kg := none, duration_sec := none, rest_sec := 60 },
                 { name := "Plancha", sets := 2, reps := RepSpec.time
                   weight_kg := none, duration_sec := some 20, rest_sec := 60 }] }
          duration_min := 12 },
        { type := BlockType.cooldown, name := "Relajacion"
          details := BlockDetails.basic
            { description := "Estiramientos y respiracion", intensity := some Intensity.low }
          duration_min := 3 }] }]

/-- `evaluateFitnessLevel`: 0–8 score over four criteria with sex-adjusted
push-up thresholds. -/
def evaluateFitnessLevel (personalRecords : PersonalRecords) (user : User) : FitnessLevel :=
  let isMan := user.sex = Sex.male
  let s1 : ℤ :=
    if isMan then
      if personalRecords.pushups_max ≥ 30 then 2
      else if personalRecords.pushups_max ≥ 15 then 1 else 0
    else
      if personalRecords.pushups_max ≥ 20 then 2
      else if personalRecords.pushups_max ≥ 10 then 1 else 0
  let s2 : ℤ :=
    if personalRecords.plank_sec ≥ 90 then 2
    else if personalRecords.plank_sec ≥ 45 then 1 else 0
  let s3 : ℤ :=
    if personalRecords.run_speed_kmh ≥ 10 then 2
    else if personalRecords.run_speed_kmh ≥ 7 then 1 else 0
  let s4 : ℤ :=
    if personalRecords.run_duration_min ≥ 30 then 2
    else if personalRecords.run_duration_min ≥ 15 then 1 else 0
  let score := s1 + s2 + s3 + s4
  if score ≥ 6 then FitnessLevel.advanced
  else if score ≥ 3 then FitnessLevel.intermediate
  else FitnessLevel.beginner

/-- `filterWorkoutsByEquipment`: a template survives only if every required
capability is present (dumbbells require a truthy positive weight). -/
def filterWorkoutsByEquipment (templates : List WorkoutTemplate) (equipment : Equipment) :
    List WorkoutTemplate :=
  templates.filter fun template =>
    template.required_equipment.all fun reqEquip =>
      match reqEquip with
      | EquipKey.treadmill => equipment.treadmill
      | EquipKey.dumbbells_kg =>
          match equipment.dumbbells_kg with
          | some d => decide (d ≠ 0) && decide (d > 0)
          | none => false
      | EquipKey.rope => equipment.rope
      | EquipKey.mat => equipment.mat
      | EquipKey.resistance_bands => equipment.resistance_bands

/-- Intensity multiplier by fitness level. -/
def intensityMultiplier : FitnessLevel → ℚ
  | FitnessLevel.beginner => 0.8
  | FitnessLevel.intermediate => 1
  | FitnessLevel.advanced => 1.2

/-- The per-exercise rescaling inside `progressWorkout`: three sequential name
checks (push-ups, plank, sit-ups) against the personal-record maxima, scaled by
the intensity multiplier only. -/
def progressStrengthExercise (records : PersonalRecords) (im : ℚ)
    (exercise : StrengthExercise) : StrengthExercise :=
  let e1 :=
    if strIncludes (strLower exercise.name) "flexion" then
      match exercise.reps with
      | RepSpec.num _ =>
          { exercise with
            reps := RepSpec.num ((max 5 (jsRound (records.pushups_max * 0.7 * im)) : ℤ) : ℚ) }
      | _ => exercise
    else exercise
  let e2 :=
    if strIncludes (strLower e1.name) "plancha" then
      match e1.duration_sec with
      | some d =>
          if d ≠ 0 then
            { e1 with
              duration_sec := some ((max 15 (jsRound (records.plank_sec * 0.8 * im)) : ℤ) : ℚ) }
          else e1
      | none => e1
    else e1
  let e3 :=
    if strIncludes (strLower e2.name) "abdominal" then
      match e2.reps with
      | RepSpec.num _ =>
          { e2 with
            reps := RepSpec.num ((max 10 (jsRound (records.abs_max * 0.7 * im)) : ℤ) : ℚ) }
      | _ => e2
    else e2
  e3

/-- The strength branch of the per-block rescaling in `progressWorkout`. -/
def progressBlockStrengthStep (records : PersonalRecords) (im : ℚ)
    (block : TemplateBlock) : TemplateBlock :=
  if block.type = BlockType.strength then
    match block.details with
    | BlockDetails.strength sd =>
        { block with
          details := BlockDetails.strength
            { exercises := sd.exercises.map (progressStrengthExercise records im) } }
    | _ => block
  else block

/-- The run branch of the per-block rescaling in `progressWorkout`. -/
def progressBlockRunStep (im : ℚ) (block : TemplateBlock) : TemplateBlock :=
  if block.type = BlockType.run then
    match block.details with
    | BlockDetails.run rd =>
        { block with details := BlockDetails.run { rd with speed_kmh := max 5 (rd.speed_kmh * im) } }
    | _ => block
  else block

/-- The interval branch of the per-block rescaling in `progressWorkout`. -/
def progressBlockHiitStep (im : ℚ) (block : TemplateBlock) : TemplateBlock :=
  if block.type = BlockType.hiit then
    match block.details with
    | BlockDetails.hiit hd =>
        { block with
          details := BlockDetails.hiit
            { hd with
              work_sec := (jsRound (hd.work_sec * im) : ℚ)
              rest_sec := (jsRound (hd.rest_sec / im) : ℚ) } }
    | _ => block
  else block

/-- The per-block rescaling of `progressWorkout` (the part before the failing
calorie estimate): the per-session multiplier is computed but never applied —
only the fitness-level intensity multiplier enters any formula. -/
def progressBlock (records : PersonalRecords) (fitnessLevel : FitnessLevel)
    (sessionNumber : ℚ) (block : TemplateBlock) : TemplateBlock :=
  let im := intensityMultiplier fitnessLevel
  let _sessionMultiplier := 1 + (sessionNumber - 1) * 0.05
  progressBlockHiitStep im (progressBlockRunStep im (progressBlockStrengthStep records im block))

/-- `progressWorkout`: each block of the template is rescaled and then given a
calorie estimate — but the estimate reads `user.weight_kg` and no `user` is
bound in the function's scope (googleCalendar.ts line 1151), so the first map
callback throws a `ReferenceError` and the rescaled blocks are discarded.  An
empty block list never invokes the callback and succeeds vacuously. -/
def progressWorkout (template : WorkoutTemplate) (_records : PersonalRecords)
    (_fitnessLevel : FitnessLevel) (_sessionNumber : ℚ) : Except String (List WorkoutBlock) :=
  match template.blocks with
  | [] => Except.ok []
  | _ :: _ => Except.error "ReferenceError: user is not defined"

inductive PreferredType
  | cardio
  | strength
  | mixed
deriving DecidableEq

structure WorkoutPrefs where
  preferred_duration : Option ℚ
  preferred_type : Option PreferredType
  avoid_high_impact : Option Bool
deriving DecidableEq

/-- The per-template score inside `selectBestWorkout` (duration closeness bonus
under a truthy preferred duration, preferred-category bonus, high-impact
penalty). -/
def scoreWorkoutTemplate (template : WorkoutTemplate) (preferences : WorkoutPrefs) : ℚ :=
  (match preferences.preferred_duration with
   | some pd => if pd ≠ 0 then max 0 (10 - |template.duration_min - pd| / 5) else 0
   | none => 0)
    + (match preferences.preferred_type with
       | some PreferredType.cardio =>
          if template.type = WorkoutType.run ∨ template.type = WorkoutType.hiit then 5 else 0
       | some PreferredType.strength =>
          if template.type = WorkoutType.strength then 5 else 0
       | some PreferredType.mixed =>
          if template.type = WorkoutType.mixed then 5 else 0
       | none => 0)
    - (if preferences.avoid_high_impact.getD false
          ∧ (template.type = WorkoutType.hiit ∨ template.type = WorkoutType.run) then 3 else 0)

structure ScoredTemplate where
  template : WorkoutTemplate
  score : ℚ

/-- `selectBestWorkout`: filter by fitness level (falling back to the first
available template), score, sort descending, take the head. -/
def selectBestWorkout (availableTemplates : List WorkoutTemplate)
    (fitnessLevel : FitnessLevel) (preferences : WorkoutPrefs) : Option WorkoutTemplate :=
  if availableTemplates.isEmpty then none
  else if (availableTemplates.filter fun t => t.fitness_level.contains fitnessLevel).isEmpty then
    availableTemplates.head?
  else
    match (((availableTemplates.filter fun t => t.fitness_level.contains fitnessLevel).map fun t =>
        ({ template := t, score := scoreWorkoutTemplate t preferences } : ScoredTemplate)).mergeSort
          (fun a b => decide (b.score ≤ a.score))).head? with
    | some e => some e.template
    | none => none

/-- `generateWorkoutPlan`; `date` and `createdAt` as epoch-day counts (the ISO
strings in the record fields are presentation-only and left empty).  The
`try`/`catch` converts the `progressWorkout` failure into `null`. -/
def generateWorkoutPlan (user : User) (personalRecords : PersonalRecords) (date : ℤ)
    (preferences : Option WorkoutPrefs) : Option WorkoutPlanDay :=
  let fitnessLevel := evaluateFitnessLevel personalRecords user
  let availableTemplates := filterWorkoutsByEquipment WORKOUT_TEMPLATES user.equipment
  if availableTemplates.isEmpty then none
  else
    match selectBestWorkout availableTemplates fitnessLevel
        (preferences.getD
          { preferred_duration := none, preferred_type := none, avoid_high_impact := none }) with
    | none => none
    | some selectedTemplate =>
      let daysDiff : ℤ := date - user.createdAt
      let sessionNumber : ℤ := ⌊(daysDiff : ℚ) / 2⌋ + 1
      match progressWorkout selectedTemplate personalRecords fitnessLevel
          ((sessionNumber : ℚ)) with
      | Except.error _ => none
      | Except.ok progressedBlocks =>
        some { id := user.id ++ "_workout", user_id := user.id, date := ""
               blocks := progressedBlocks
               duration_min := selectedTemplate.duration_min
               kcal_estimate := (progressedBlocks.map fun b => b.kcal_estimate).sum
               completed := false, rpe := none, notes := "" }

/-! ### Shopping list generator (`src/utils/shoppingListGenerator.ts`) -/

structure Per100g where
  kcal : ℚ
  protein : ℚ
  fat : ℚ
  carbs : ℚ
  fiber : ℚ
  sodium : ℚ
deriving DecidableEq

structure FoodItem where
  id : String
  name : String
  per_100g : Per100g
  cost_per_kg : Option ℚ
  seasonal_months : Option (List ℤ)
deriving DecidableEq

inductive PriorityLevel
  | high
  | medium
  | low
deriving DecidableEq

structure ConsolidatedIngredient where
  food_id : String
  total_grams : ℚ
  used_in_recipes : List String
  priority : PriorityLevel
deriving DecidableEq

/-- `determineIngredientPriority`. -/
def determineIngredientPriority (foodId : String) (totalGrams : ℚ) : PriorityLevel :=
  if ["chicken_breast", "ground_beef_lean", "white_fish", "eggs",
      "protein_powder"].contains foodId then PriorityLevel.high
  else if ["mushrooms", "onion", "zucchini", "green_beans", "cucumber"].contains foodId
      ∧ totalGrams ≥ 500 then PriorityLevel.medium
  else PriorityLevel.low

/-- In-place map update of `consolidateIngredients` (a JS `Map` keeps insertion
order; the priority is fixed from the grams of the first occurrence). -/
def upsertConsolidated (lst : List ConsolidatedIngredient) (recipeId foodId : String)
    (grams : ℚ) : List ConsolidatedIngredient :=
  if lst.any fun c => c.food_id == foodId then
    lst.map fun c =>
      if c.food_id == foodId then
        { c with
          total_grams := c.total_grams + grams
          used_in_recipes :=
            if c.used_in_recipes.contains recipeId then c.used_in_recipes
            else c.used_in_recipes ++ [recipeId] }
      else c
  else
    lst ++ [{ food_id := foodId, total_grams := grams, used_in_recipes := [recipeId]
              priority := determineIngredientPriority foodId grams }]

/-- `consolidateIngredients`. -/
def consolidateIngredients (mealPlans : List MealPlanDay) (recipes : List Recipe) :
    List ConsolidatedIngredient :=
  mealPlans.foldl
    (fun acc plan =>
      plan.meals.foldl
        (fun acc meal =>
          match recipes.find? fun r => r.id == meal.recipe_id with
          | none => acc
          | some recipe =>
            recipe.ingredients.foldl
              (fun acc ingredient =>
                upsertConsolidated acc recipe.id ingredient.food_id
                  (ingredient.grams * meal.portions))
              acc)
        acc)
    []

inductive StoreKey
  | supermarket
  | market
  | baes
deriving DecidableEq

structure StoreConfig where
  name : String
  baes_discount : ℚ
  seasonal_discount : ℚ
  bulk_discount_threshold : ℚ
  bulk_discount_pct : ℚ
  delivery_cost : Option ℤ
deriving DecidableEq

/-- The fixed `STORE_CONFIGS` record. -/
def STORE_CONFIGS : StoreKey → StoreConfig
  | StoreKey.supermarket =>
      { name := "Supermercado", baes_discount := 0, seasonal_discount := 5
        bulk_discount_threshold := 2000, bulk_discount_pct := 8, delivery_cost := some 2000 }
  | StoreKey.market =>
      { name := "Feria/Mercado", baes_discount := 15, seasonal_discount := 20
        bulk_discount_threshold := 1000, bulk_discount_pct := 12, delivery_cost := some 0 }
  | StoreKey.baes =>
      { name := "Almacen BAES", baes_discount := 25, seasonal_discount := 10
        bulk_discount_threshold := 500, bulk_discount_pct := 15, delivery_cost := some 0 }

/-- Pricing result; the human-readable discount labels are presentation-only
and omitted. -/
structure PriceInfo where
  original_price : ℤ
  final_price : ℤ
deriving DecidableEq

/-- `calculateDiscountedPrice`: BAES, seasonal and bulk discounts applied
multiplicatively in sequence, each under its own condition. -/
def calculateDiscountedPrice (basePrice : ℚ) (foodItem : FoodItem) (grams : ℚ)
    (storeConfig : StoreConfig) (user : User) (currentMonth : ℤ) : PriceInfo :=
  let original_price := jsRound (basePrice / 1000 * grams)
  let f0 : ℚ := (original_price : ℚ)
  let f1 :=
    if user.budget_level = BudgetLevel.low ∧ storeConfig.baes_discount > 0 then
      f0 - f0 * (storeConfig.baes_discount / 100)
    else f0
  let f2 :=
    if (foodItem.seasonal_months.getD []).contains currentMonth then
      f1 - f1 * (storeConfig.seasonal_discount / 100)
    else f1
  let f3 :=
    if grams ≥ storeConfig.bulk_discount_threshold then
      f2 - f2 * (storeConfig.bulk_discount_pct / 100)
    else f2
  { original_price := original_price, final_price := jsRound f3 }

/-- Stores available to a user: low budget unlocks the BAES store. -/
def availableStores (user : User) : List StoreKey :=
  if user.budget_level = BudgetLevel.low then
    [StoreKey.supermarket, StoreKey.market, StoreKey.baes]
  else [StoreKey.supermarket, StoreKey.market]

/-- Running best of the inner store loop; `bestPrice = none` models the initial
`Infinity`. -/
structure BestChoice where
  bestStore : StoreKey
  bestPrice : Option ℤ
  bestSavings : ℤ
deriving DecidableEq

/-- One iteration of the store-comparison loop of `optimizeStoreDistribution`. -/
def chooseStoreStep (costPerKg : ℚ) (foodItem : FoodItem) (grams : ℚ) (user : User)
    (month : ℤ) (acc : BestChoice) (storeKey : StoreKey) : BestChoice :=
  let pricing := calculateDiscountedPrice costPerKg foodItem grams (STORE_CONFIGS storeKey)
    user month
  let better :=
    match acc.bestPrice with
    | none => true
    | some bp => decide (pricing.final_price < bp)
  if better then
    { bestStore := storeKey, bestPrice := some pricing.final_price
      bestSavings := pricing.original_price - pricing.final_price }
  else acc

/-- The store-comparison loop (initial best store defaults to `market`). -/
def chooseBestStore (stores : List StoreKey) (costPerKg : ℚ) (foodItem : FoodItem)
    (grams : ℚ) (user : User) (month : ℤ) : BestChoice :=
  stores.foldl (chooseStoreStep costPerKg foodItem grams user month)
    { bestStore := StoreKey.market, bestPrice := none, bestSavings := 0 }

/-- The guard plus inner loop of `optimizeStoreDistribution` for one ingredient:
skipped when the food item is missing or its cost per kg is absent or zero
(a JS truthiness test). -/
def itemBest (foodItems : List FoodItem) (user : User) (month : ℤ)
    (ingredient : ConsolidatedIngredient) : Option BestChoice :=
  match foodItems.find? fun f => f.id == ingredient.food_id with
  | none => none
  | some foodItem =>
    match foodItem.cost_per_kg with
    | none => none
    | some c =>
      if c = 0 then none
      else some (chooseBestStore (availableStores user) c foodItem ingredient.total_grams
        user month)

structure OptState where
  distribution : List (StoreKey × List ConsolidatedIngredient)
  cost_breakdown : List (StoreKey × ℤ)
  total_cost : ℤ
  total_savings : ℤ
deriving DecidableEq

/-- Append an ingredient to a store's bucket. -/
def addToStore (dist : List (StoreKey × List ConsolidatedIngredient)) (k : StoreKey)
    (ing : ConsolidatedIngredient) : List (StoreKey × List ConsolidatedIngredient) :=
  dist.map fun p => if p.1 = k then (p.1, p.2 ++ [ing]) else p

/-- Add an amount to a store's subtotal. -/
def addCost (cb : List (StoreKey × ℤ)) (k : StoreKey) (amount : ℤ) :
    List (StoreKey × ℤ) :=
  cb.map fun p => if p.1 = k then (p.1, p.2 + amount) else p

/-- One iteration of the per-ingredient assignment loop.  The inner `none`
branch on `bestPrice` is unreachable because the store list is never empty. -/
def optimizeItemsStep (foodItems : List FoodItem) (user : User) (month : ℤ)
    (st : OptState) (ingredient : ConsolidatedIngredient) : OptState :=
  match itemBest foodItems user month ingredient with
  | none => st
  | some choice =>
    match choice.bestPrice with
    | none => st
    | some bp =>
      { distribution := addToStore st.distribution choice.bestStore ingredient
        cost_breakdown := addCost st.cost_breakdown choice.bestStore bp
        total_cost := st.total_cost + bp
        total_savings := st.total_savings + choice.bestSavings }

/-- One iteration of the delivery-cost pass (a JS truthiness test on
`delivery_cost`). -/
def deliveryStep (st : OptState) (entry : StoreKey × List ConsolidatedIngredient) :
    OptState :=
  if entry.2 ≠ [] then
    match (STORE_CONFIGS entry.1).delivery_cost with
    | some dc =>
      if dc ≠ 0 then
        { st with
          cost_breakdown := addCost st.cost_breakdown entry.1 dc
          total_cost := st.total_cost + dc }
      else st
    | none => st
  else st

/-- `optimizeStoreDistribution`: assign every priced ingredient to its cheapest
available store, then add flat delivery costs for stores that received items. -/
def optimizeStoreDistribution (consolidatedIngredients : List ConsolidatedIngredient)
    (foodItems : List FoodItem) (user : User) (currentMonth : ℤ) : OptState :=
  let afterItems := consolidatedIngredients.foldl
    (optimizeItemsStep foodItems user currentMonth)
    { distribution := (availableStores user).map fun s => (s, [])
      cost_breakdown := (availableStores user).map fun s => (s, 0)
      total_cost := 0, total_savings := 0 }
  afterItems.distribution.foldl deliveryStep afterItems

inductive StoreMode
  | mixed
  | supermarket
  | market
  | baes
deriving DecidableEq

def storeModeOfKey : StoreKey → StoreMode
  | StoreKey.supermarket => StoreMode.supermarket
  | StoreKey.market => StoreMode.market
  | StoreKey.baes => StoreMode.baes

structure ShoppingItem where
  food_id : String
  grams_total : ℚ
  store_hint : StoreKey
  priority : PriorityLevel
  cost_estimate : Option ℤ
  purchased : Bool
deriving DecidableEq

structure ShoppingList where
  id : String
  user_id : String
  week_start : String
  items : List ShoppingItem
  total_cost_estimate : Option ℤ
  store_mode : StoreMode
deriving DecidableEq

/-- `generateWeeklyShoppingList`: consolidation, optimization, item records and
the dominant store mode.  The body cannot throw, so the `try`/`catch` rethrow
is inert; `currentMonth` stands for the clock read `new Date().getMonth()+1`. -/
def generateWeeklyShoppingList (user : User) (mealPlans : List MealPlanDay)
    (recipes : List Recipe) (foodItems : List FoodItem) (weekStart : String)
    (currentMonth : ℤ) : ShoppingList :=
  let consolidatedIngredients := consolidateIngredients mealPlans recipes
  let optimization := optimizeStoreDistribution consolidatedIngredients foodItems user
    currentMonth
  let shoppingItems := optimization.distribution.foldl
    (fun acc entry =>
      acc ++ entry.2.filterMap fun ingredient =>
        match foodItems.find? fun f => f.id == ingredient.food_id with
        | none => none
        | some foodItem =>
          some { food_id := ingredient.food_id, grams_total := ingredient.total_grams
                 store_hint := entry.1, priority := ingredient.priority
                 cost_estimate := some (calculateDiscountedPrice (foodItem.cost_per_kg.getD 0)
                   foodItem ingredient.total_grams (STORE_CONFIGS entry.1) user
                   currentMonth).final_price
                 purchased := false })
    []
  let storeCosts := (optimization.cost_breakdown.filter fun p => decide (p.2 > 0)).mergeSort
    (fun a b => decide (b.2 ≤ a.2))
  let store_mode :=
    if storeCosts.length = 1 then storeModeOfKey (storeCosts.headD (StoreKey.market, 0)).1
    else if user.budget_level = BudgetLevel.low then StoreMode.baes
    else StoreMode.mixed
  { id := user.id ++ "_shopping_" ++ weekStart, user_id := user.id, week_start := weekStart
    items := shoppingItems, total_cost_estimate := some optimization.total_cost
    store_mode := store_mode }

/-- The delivery costs added for a distribution (statement helper mirroring the
delivery pass). -/
def deliveryTotal (dist : List (StoreKey × List ConsolidatedIngredient)) : ℤ :=
  (dist.filterMap fun entry =>
    if entry.2 ≠ [] then
      match (STORE_CONFIGS entry.1).delivery_cost with
      | some dc => if dc ≠ 0 then some dc else none
      | none => none
    else none).sum

/-! ### Sample data used in concrete instantiations -/

/-- A profile used for concrete instantiations: female, 70 kg, goal 65 kg,
165 cm, 28 years, neutral preferences.  Its metrics at activity factor 1.55:
BMR 1430, TDEE 2217, calorie target 1884, protein target 124 g. -/
def sampleUser : User :=
  { id := "u1", name := "Sample"
    sex := Sex.female, age := 28, height_cm := 165, weight_kg := 70
    goal_weight_kg := 65, kcal_target := 0, budget_level := BudgetLevel.medium
    preferences :=
      { no_oil := false, no_sugar := false, no_fried := false
        dislikes := [], likes := [], avocado_daily_g := 20
        nuts_weekly_servings := 1, fish_weekly_servings := 2 }
    health := { ldl := none, hdl := none, tg := none, allergies := [], intolerances := [] }
    equipment :=
      { treadmill := false, dumbbells_kg := none, rope := false
        mat := false, resistance_bands := false }
    createdAt := 0 }

/-- A generated day whose calories deviate 20% from the sample profile's target
(2261 vs 1884) while protein matches the target exactly and two meals exist. -/
def overshootPlan : MealPlanDay :=
  { id := "p1", user_id := "u1", date := "2025-01-06"
    meals :=
      [{ type := MealType.almuerzo, recipe_id := "r1", portions := 1
         time_scheduled := "13:00", completed := false },
       { type := MealType.cena, recipe_id := "r2", portions := 1
         time_scheduled := "20:00", completed := false }]
    totals := { kcal := 2261, protein := 124, fat := 40, carbs := 200, fiber := 20 }
    adherence := some 0, notes := "" }

/-- A day matching the sample profile's targets exactly. -/
def onTargetPlan : MealPlanDay :=
  { overshootPlan with totals := { kcal := 1884, protein := 124, fat := 40, carbs := 200, fiber := 20 } }

/-- A recipe record with neutral content whose calories are a parameter. -/
def plainRecipe (kcal : ℚ) : Recipe :=
  { id := "r", name := "Plain", category := MealType.almuerzo, tags := []
    ingredients := []
    per_portion := { kcal := kcal, protein := 10, fat := 5, carbs := 20, fiber := 2 }
    portions := 1, prep_time_min := 10, cooking_time_min := 10, cost_estimate := none }

/-- Personalization rules with every flag off and empty ingredient lists. -/
def rulesNeutral : PersonalizationRules :=
  { no_oil := false, no_sugar := false, no_fried := false, budget_priority := false
    cholesterol_friendly := false, high_protein := false, batch_cooking := false
    excluded_ingredients := [], preferred_ingredients := [], max_prep_time := none }

/-- Sample maintenance profile: goal weight equal to current weight. -/
def maintenanceUser : User :=
  { sampleUser with goal_weight_kg := 70 }

def sampleRecords : PersonalRecords :=
  { user_id := "u1", pushups_max := 20, abs_max := 30, plank_sec := 60
    run_speed_kmh := 9, run_duration_min := 20, updated_at := 0 }

def m1C3 : Measurement := { id := "m1", user_id := "u1", date := 0, weight_kg := 70 }

def m2C3 : Measurement := { id := "m2", user_id := "u1", date := 7, weight_kg := 68 }

def flexExercise : StrengthExercise :=
  { name := "Flexiones", sets := 3, reps := RepSpec.num 10, weight_kg := none
    duration_sec := none, rest_sec := 90 }

def flexBlock : TemplateBlock :=
  { type := BlockType.strength, name := "Circuito principal"
    details := BlockDetails.strength { exercises := [flexExercise] }, duration_min := 15 }

/-- A profile owning every piece of equipment. -/
def gymUser : User :=
  { sampleUser with
    equipment :=
      { treadmill := true, dumbbells_kg := some 10, rope := true, mat := true
        resistance_bands := true } }

def chickenIngredient : ConsolidatedIngredient :=
  { food_id := "chicken_breast", total_grams := 1200, used_in_recipes := ["r1"]
    priority := PriorityLevel.high }

def chickenFood : FoodItem :=
  { id := "chicken_breast", name := "Pechuga de pollo"
    per_100g := { kcal := 120, protein := 22, fat := 2, carbs := 0, fiber := 0, sodium := 60 }
    cost_per_kg := some 6000, seasonal_months := none }

/-- The spec's scenario profile: a low-budget user. -/
def lowBudgetUser : User :=
  { sampleUser with budget_level := BudgetLevel.low }

/-! ### Claims about the metrics calculator -/

/-- Helper: the max field of the kcal range also respects an integer lower bound. -/
theorem jsRound_scale_ge (t m : ℤ) (hm : 0 ≤ m) :
    m ≤ jsRound (((max t m : ℤ) : ℚ) * 1.05) := by
  have hs : m ≤ max t m := le_max_right _ _
  have hs0 : (0 : ℤ) ≤ max t m := le_trans hm hs
  have hq : ((m : ℚ)) ≤ ((max t m : ℤ) : ℚ) * 1.05 + 1 / 2 := by
    have h1 : ((m : ℚ)) ≤ ((max t m : ℤ) : ℚ) := by exact_mod_cast hs
    have h2 : ((0 : ℚ)) ≤ ((max t m : ℤ) : ℚ) := by exact_mod_cast hs0
    nlinarith
  exact Int.le_floor.mpr hq

/-- C1: for every TDEE, goal weight, current weight and sex, all three fields of
`calculateKcalRange` (target, min, max) are at least the sex-specific safety
floor (1500 kcal male, 1200 kcal female), whatever deficit/surplus tier fires. -/
theorem C1_kcal_range_respects_floor (tdee goal cur : ℚ) (sex : Sex) :
    (if sex = Sex.male then (1500 : ℤ) else 1200) ≤ (calculateKcalRange tdee goal cur sex).target ∧
    (if sex = Sex.male then (1500 : ℤ) else 1200) ≤ (calculateKcalRange tdee goal cur sex).min ∧
    (if sex = Sex.male then (1500 : ℤ) else 1200) ≤ (calculateKcalRange tdee goal cur sex).max := by
  have hm : (0 : ℤ) ≤ if sex = Sex.male then (1500 : ℤ) else 1200 := by
    split <;> norm_num
  simp only [calculateKcalRange]
  exact ⟨le_max_right _ _, le_max_right _ _, jsRound_scale_ge _ _ hm⟩

/-- C2: `calculateBMR_Mifflin` is exactly the rounded Mifflin–St Jeor closed form,
and on the spec scenario (female, 70 kg, 165 cm, 28 years) it returns 1430. -/
theorem C2_basal_rate_formula :
    (∀ (sex : Sex) (w h a : ℚ),
      calculateBMR_Mifflin sex w h a
        = jsRound (10 * w + 6.25 * h - 5 * a + (if sex = Sex.male then (5 : ℚ) else -161))) ∧
    calculateBMR_Mifflin Sex.female 70 165 28 = 1430 := by
  constructor
  · intro sex w h a
    rfl
  · show jsRound (10 * 70 + 6.25 * 165 - 5 * 28 + -161) = 1430
    unfold jsRound
    norm_num

/-- C10: `calculateMacros` fixes fat at 0.6 g per kg of goal weight, computes carbs
as the remaining calories over 4 floored at 0, and whenever carbs_g > 0 the energy
of the split (4·protein + 9·fat + 4·carbs) is within 4 kcal of the calorie target. -/
theorem C10_macro_energy_consistency (kcal goal : ℚ) (pref : ProteinPref) :
    (calculateMacros kcal goal pref).fat_g = jsRound (goal * 0.6) ∧
    (calculateMacros kcal goal pref).carbs_g
      = max 0 (jsRound ((kcal - ((calculateMacros kcal goal pref).protein_g : ℚ) * 4
          - ((calculateMacros kcal goal pref).fat_g : ℚ) * 9) / 4)) ∧
    (0 < (calculateMacros kcal goal pref).carbs_g →
      |((calculateMacros kcal goal pref).protein_g : ℚ) * 4
        + ((calculateMacros kcal goal pref).fat_g : ℚ) * 9
        + ((calculateMacros kcal goal pref).carbs_g : ℚ) * 4 - kcal| ≤ 4) := by
  refine ⟨rfl, rfl, ?_⟩
  intro hpos
  set p : ℤ := (calculateMacros kcal goal pref).protein_g with hp
  set f : ℤ := (calculateMacros kcal goal pref).fat_g with hf
  set R : ℚ := kcal - (p : ℚ) * 4 - (f : ℚ) * 9 with hR
  have hc : (calculateMacros kcal goal pref).carbs_g = max 0 (jsRound (R / 4)) := rfl
  rw [hc] at hpos ⊢
  have hjs : 0 < jsRound (R / 4) := by
    by_contra hneg
    push_neg at hneg
    rw [max_eq_left hneg] at hpos
    exact lt_irrefl 0 hpos
  rw [max_eq_right (le_of_lt hjs)] at hpos ⊢
  have hub : (jsRound (R / 4) : ℚ) ≤ R / 4 + 1 / 2 := Int.floor_le _
  have hlb : R / 4 + 1 / 2 - 1 < (jsRound (R / 4) : ℚ) := Int.sub_one_lt_floor _
  rw [abs_le]
  constructor <;> nlinarith

/-! ### Claims about meal plan validation (C4) -/

theorem female_ne_male : ¬ (Sex.female = Sex.male) := by decide

/-- Evaluation of the sample profile's metrics at activity factor 1.55. -/
theorem sampleUser_metrics :
    (calculateAllMetrics sampleUser 1.55).kcal_range.target = 1884 ∧
    (calculateAllMetrics sampleUser 1.55).macros.protein_g = 124 := by
  norm_num [calculateAllMetrics, calculateBMI, calculateBMR_Mifflin, calculateTDEE,
    calculateKcalRange, calculateMacros, MACRO_RATIOS, jsRound, jsRound1, sampleUser,
    max_def, min_def, female_ne_male]

/-- C4 counterexample: this day satisfies every condition of the claimed rule
(calories within 30% of target, protein above 80% of target, at least 2 meals),
yet `validateMealPlan` flags it invalid, because the code's thresholds are
15% / 20%, not 30% / 80%, and it never counts meals. -/
theorem C4_counterexample :
    (validateMealPlan overshootPlan sampleUser 1.55).valid = false ∧
    |overshootPlan.totals.kcal - ((calculateAllMetrics sampleUser 1.55).kcal_range.target : ℚ)|
      ≤ 0.30 * ((calculateAllMetrics sampleUser 1.55).kcal_range.target : ℚ) ∧
    0.80 * ((calculateAllMetrics sampleUser 1.55).macros.protein_g : ℚ)
      ≤ overshootPlan.totals.protein ∧
    2 ≤ overshootPlan.meals.length := by
  obtain ⟨ht, hp⟩ := sampleUser_metrics
  refine ⟨?_, ?_, ?_, ?_⟩
  · simp only [validateMealPlan, ht, hp, overshootPlan]
    norm_num
  · rw [ht]; norm_num [overshootPlan]
  · rw [hp]; norm_num [overshootPlan]
  · norm_num [overshootPlan]

/-- C4 amended: `validateMealPlan` reports a day valid exactly when its total
calories deviate at most 15% (two-sided, relative) from the calorie target and
its total protein deviates at most 20% (two-sided, relative) from the protein
target; the number of meals is not examined.  The protein target is assumed
positive, matching the JS division semantics. -/
theorem C4_amended (plan : MealPlanDay) (user : User) (af : ℚ)
    (_hp : 0 < (calculateAllMetrics user af).macros.protein_g) :
    (validateMealPlan plan user af).valid = true ↔
      (|plan.totals.kcal - ((calculateAllMetrics user af).kcal_range.target : ℚ)|
          / ((calculateAllMetrics user af).kcal_range.target : ℚ) ≤ 0.15 ∧
        |plan.totals.protein - ((calculateAllMetrics user af).macros.protein_g : ℚ)|
          / ((calculateAllMetrics user af).macros.protein_g : ℚ) ≤ 0.20) := by
  simp only [validateMealPlan]
  by_cases h1 : |plan.totals.kcal - ((calculateAllMetrics user af).kcal_range.target : ℚ)|
      / ((calculateAllMetrics user af).kcal_range.target : ℚ) > 0.15 <;>
    by_cases h2 : |plan.totals.protein - ((calculateAllMetrics user af).macros.protein_g : ℚ)|
        / ((calculateAllMetrics user af).macros.protein_g : ℚ) > 0.20 <;>
      simp [h1, h2, not_lt.mp]

/-- Witness for C4: at the sample profile the protein target 124 is positive and
the amended equivalence holds for the on-target day. -/
theorem C4_witness :
    0 < (calculateAllMetrics sampleUser 1.55).macros.protein_g ∧
    ((validateMealPlan onTargetPlan sampleUser 1.55).valid = true ↔
      (|onTargetPlan.totals.kcal - ((calculateAllMetrics sampleUser 1.55).kcal_range.target : ℚ)|
          / ((calculateAllMetrics sampleUser 1.55).kcal_range.target : ℚ) ≤ 0.15 ∧
        |onTargetPlan.totals.protein - ((calculateAllMetrics sampleUser 1.55).macros.protein_g : ℚ)|
          / ((calculateAllMetrics sampleUser 1.55).macros.protein_g : ℚ) ≤ 0.20)) := by
  have hp : 0 < (calculateAllMetrics sampleUser 1.55).macros.protein_g := by
    rw [sampleUser_metrics.2]; norm_num
  exact ⟨hp, C4_amended onTargetPlan sampleUser 1.55 hp⟩

/-! ### Claims about recipe selection (C5) -/

theorem scoredLE_refl (a : ScoredRecipe) : scoredLE a a := by
  simp [scoredLE]

theorem scoredLE_trans (a b c : ScoredRecipe) (hab : scoredLE a b) (hbc : scoredLE b c) :
    scoredLE a c := by
  simp only [scoredLE, Bool.or_eq_true, Bool.and_eq_true, decide_eq_true_eq] at *
  rcases hab with h1 | ⟨h1, h1d⟩ <;> rcases hbc with h2 | ⟨h2, h2d⟩
  · exact Or.inl (lt_trans h2 h1)
  · exact Or.inl (h2 ▸ h1)
  · exact Or.inl (h1 ▸ h2)
  · exact Or.inr ⟨h1.trans h2, le_trans h1d h2d⟩

theorem scoredLE_total (a b : ScoredRecipe) : scoredLE a b || scoredLE b a := by
  simp only [scoredLE, Bool.or_eq_true, Bool.and_eq_true, decide_eq_true_eq]
  rcases lt_trichotomy a.score b.score with h | h | h
  · exact Or.inr (Or.inl h)
  · rcases le_total a.kcalDiff b.kcalDiff with hd | hd
    · exact Or.inl (Or.inr ⟨h, hd⟩)
    · exact Or.inr (Or.inr ⟨h.symm, hd⟩)
  · exact Or.inl (Or.inl h)

/-- The head of the comparator-sorted list dominates every list element. -/
theorem mergeSort_head_all (l t : List ScoredRecipe) (e : ScoredRecipe)
    (h : l.mergeSort scoredLE = e :: t) : ∀ x ∈ l, scoredLE e x := by
  intro x hx
  have hmem : x ∈ l.mergeSort scoredLE := List.mem_mergeSort.mpr hx
  rw [h, List.mem_cons] at hmem
  rcases hmem with rfl | hmem'
  · exact scoredLE_refl x
  · have hp := List.sorted_mergeSort scoredLE_trans scoredLE_total l
    rw [h] at hp
    exact (List.pairwise_cons.mp hp).1 x hmem'

/-- C5 counterexample: the claimed score includes a penalty proportional to the
recipe's relative calorie deviation from the slot target, but two recipes that
differ only in calories (100 vs 1000000 kcal) receive the same score — indeed
`scoreRecipe` does not even take the slot target as an argument.  Calorie
deviation affects only the ±15% pre-filter and the tie-breaker. -/
theorem C5_counterexample :
    scoreRecipe (plainRecipe 100) rulesNeutral = scoreRecipe (plainRecipe 1000000) rulesNeutral ∧
    (plainRecipe 100).per_portion.kcal ≠ (plainRecipe 1000000).per_portion.kcal := by
  constructor
  · rfl
  · show (100 : ℚ) ≠ 1000000
    norm_num

/-- C5 amended: for a non-empty candidate list and positive slot target,
`selectRecipeForCalories` returns a member of the pool (the ±15% subset when
non-empty, else the full list) whose score — tag bonuses, liked-ingredient
bonus and budget cost penalty only, with no calorie-deviation term — is
maximal, with ties broken by smallest absolute calorie deviation. -/
theorem C5_selection_maximal (recipes : List Recipe) (targetKcal : ℚ)
    (rules : PersonalizationRules) (hne : recipes ≠ []) (_hpos : 0 < targetKcal) :
    ∃ r, selectRecipeForCalories recipes targetKcal rules 0.15 = some r ∧
      r ∈ recipePool recipes targetKcal 0.15 ∧
      ∀ x ∈ recipePool recipes targetKcal 0.15,
        scoreRecipe x rules < scoreRecipe r rules ∨
          (scoreRecipe r rules = scoreRecipe x rules ∧
            |r.per_portion.kcal - targetKcal| ≤ |x.per_portion.kcal - targetKcal|) := by
  have hempty : recipes.isEmpty = false := by
    cases recipes with
    | nil => exact absurd rfl hne
    | cons a l => rfl
  have hpool : recipePool recipes targetKcal 0.15 ≠ [] := by
    unfold recipePool
    split
    · exact hne
    · next hflt =>
      intro hcontra
      rw [hcontra] at hflt
      exact hflt rfl
  simp only [selectRecipeForCalories, hempty, Bool.false_eq_true, if_false]
  cases hms : ((recipePool recipes targetKcal 0.15).map fun recipe =>
      { recipe := recipe, score := scoreRecipe recipe rules
        kcalDiff := |recipe.per_portion.kcal - targetKcal| : ScoredRecipe }).mergeSort scoredLE with
  | nil =>
    exfalso
    have hlen := congrArg List.length hms
    simp only [List.length_mergeSort, List.length_map, List.length_nil] at hlen
    exact hpool (List.length_eq_zero.mp hlen)
  | cons e t =>
    refine ⟨e.recipe, by rfl, ?_, ?_⟩
    · have he : e ∈ ((recipePool recipes targetKcal 0.15).map fun recipe =>
          { recipe := recipe, score := scoreRecipe recipe rules
            kcalDiff := |recipe.per_portion.kcal - targetKcal| : ScoredRecipe }) := by
        apply List.mem_mergeSort.mp
        rw [hms]
        exact List.mem_cons_self _ _
      obtain ⟨r, hr, hre⟩ := List.mem_map.mp he
      rw [← hre]
      exact hr
    · intro x hx
      have hxe := mergeSort_head_all _ _ _ hms
        ({ recipe := x, score := scoreRecipe x rules
           kcalDiff := |x.per_portion.kcal - targetKcal| : ScoredRecipe })
        (List.mem_map_of_mem _ hx)
      have he : e ∈ ((recipePool recipes targetKcal 0.15).map fun recipe =>
          { recipe := recipe, score := scoreRecipe recipe rules
            kcalDiff := |recipe.per_portion.kcal - targetKcal| : ScoredRecipe }) := by
        apply List.mem_mergeSort.mp
        rw [hms]
        exact List.mem_cons_self _ _
      obtain ⟨r, _, hre⟩ := List.mem_map.mp he
      simp only [scoredLE, Bool.or_eq_true, Bool.and_eq_true, decide_eq_true_eq] at hxe
      rw [← hre] at hxe ⊢
      exact hxe

/-- Witness for C5: a singleton candidate list at slot target 500. -/
theorem C5_witness :
    [plainRecipe 100] ≠ [] ∧ (0 : ℚ) < 500 ∧
    (∃ r, selectRecipeForCalories [plainRecipe 100] 500 rulesNeutral 0.15 = some r ∧
      r ∈ recipePool [plainRecipe 100] 500 0.15 ∧
      ∀ x ∈ recipePool [plainRecipe 100] 500 0.15,
        scoreRecipe x rulesNeutral < scoreRecipe r rulesNeutral ∨
          (scoreRecipe r rulesNeutral = scoreRecipe x rulesNeutral ∧
            |r.per_portion.kcal - 500| ≤ |x.per_portion.kcal - 500|)) := by
  refine ⟨by simp, by norm_num, ?_⟩
  exact C5_selection_maximal [plainRecipe 100] 500 rulesNeutral (by simp) (by norm_num)

/-! ### Claims about daily meal plan generation (C6) -/

/-- The generation loop's accumulator equals the filter-mapped slot picks with
running totals equal to the corresponding sums. -/
theorem genFold_spec (recipes : List Recipe) (rules : PersonalizationRules)
    (targetKcal : ℚ) (slots : List (MealType × ℚ)) : ∀ acc : GenAcc,
    slots.foldl (genStep recipes rules targetKcal) acc =
      { meals := acc.meals
          ++ ((slots.filterMap (mealSlotResult recipes rules targetKcal)).map toMeal)
        totalKcal := acc.totalKcal
          + ((slots.filterMap (mealSlotResult recipes rules targetKcal)).map
              fun pk => ((pk.adjustedKcal : ℚ))).sum
        totalProtein := acc.totalProtein
          + ((slots.filterMap (mealSlotResult recipes rules targetKcal)).map
              fun pk => ((jsRound (pk.recipe.per_portion.protein * pk.portions) : ℚ))).sum
        totalFat := acc.totalFat
          + ((slots.filterMap (mealSlotResult recipes rules targetKcal)).map
              fun pk => ((jsRound (pk.recipe.per_portion.fat * pk.portions) : ℚ))).sum
        totalCarbs := acc.totalCarbs
          + ((slots.filterMap (mealSlotResult recipes rules targetKcal)).map
              fun pk => ((jsRound (pk.recipe.per_portion.carbs * pk.portions) : ℚ))).sum
        totalFiber := acc.totalFiber
          + ((slots.filterMap (mealSlotResult recipes rules targetKcal)).map
              fun pk => ((jsRound (pk.recipe.per_portion.fiber * pk.portions) : ℚ))).sum } := by
  induction slots with
  | nil => intro acc; simp
  | cons s ss ih =>
    intro acc
    simp only [List.foldl_cons, List.filterMap_cons]
    cases hslot : mealSlotResult recipes rules targetKcal s with
    | none =>
      simp only [genStep, hslot]
      rw [ih]
    | some pick =>
      simp only [genStep, hslot]
      rw [ih]
      simp [add_assoc]

/-- C6: `generateDailyMealPlan` fails (returns `none`) exactly when every slot of
the selected day template produces no pick — a slot with no candidates is simply
skipped — and any returned day carries the picked meals with totals that are the
full aggregation of the scaled per-portion macros over those meals, and contains
at least one meal. -/
theorem C6_day_generation (user : User) (recipes : List Recipe) (date : String) (af : ℚ) :
    (generateDailyMealPlan user recipes date af = none ↔
      ∀ slot ∈ (selectDayTemplate user (generatePersonalizationRules user)).kcal_distribution,
        mealSlotResult recipes (generatePersonalizationRules user)
          ((calculateAllMetrics user af).kcal_range.target : ℚ) slot = none) ∧
    (∀ d, generateDailyMealPlan user recipes date af = some d →
      d.meals ≠ [] ∧
      d.meals = (((selectDayTemplate user (generatePersonalizationRules user)).kcal_distribution.filterMap
          (mealSlotResult recipes (generatePersonalizationRules user)
            ((calculateAllMetrics user af).kcal_range.target : ℚ))).map toMeal) ∧
      d.totals.kcal = (((selectDayTemplate user (generatePersonalizationRules user)).kcal_distribution.filterMap
          (mealSlotResult recipes (generatePersonalizationRules user)
            ((calculateAllMetrics user af).kcal_range.target : ℚ))).map
            fun pk => ((pk.adjustedKcal : ℚ))).sum ∧
      d.totals.protein = (((selectDayTemplate user (generatePersonalizationRules user)).kcal_distribution.filterMap
          (mealSlotResult recipes (generatePersonalizationRules user)
            ((calculateAllMetrics user af).kcal_range.target : ℚ))).map
            fun pk => ((jsRound (pk.recipe.per_portion.protein * pk.portions) : ℚ))).sum ∧
      d.totals.fat = (((selectDayTemplate user (generatePersonalizationRules user)).kcal_distribution.filterMap
          (mealSlotResult recipes (generatePersonalizationRules user)
            ((calculateAllMetrics user af).kcal_range.target : ℚ))).map
            fun pk => ((jsRound (pk.recipe.per_portion.fat * pk.portions) : ℚ))).sum ∧
      d.totals.carbs = (((selectDayTemplate user (generatePersonalizationRules user)).kcal_distribution.filterMap
          (mealSlotResult recipes (generatePersonalizationRules user)
            ((calculateAllMetrics user af).kcal_range.target : ℚ))).map
            fun pk => ((jsRound (pk.recipe.per_portion.carbs * pk.portions) : ℚ))).sum ∧
      d.totals.fiber = (((selectDayTemplate user (generatePersonalizationRules user)).kcal_distribution.filterMap
          (mealSlotResult recipes (generatePersonalizationRules user)
            ((calculateAllMetrics user af).kcal_range.target : ℚ))).map
            fun pk => ((jsRound (pk.recipe.per_portion.fiber * pk.portions) : ℚ))).sum) := by
  have hfold := genFold_spec recipes (generatePersonalizationRules user)
    ((calculateAllMetrics user af).kcal_range.target : ℚ)
    (selectDayTemplate user (generatePersonalizationRules user)).kcal_distribution
    { meals := [], totalKcal := 0, totalProtein := 0, totalFat := 0
      totalCarbs := 0, totalFiber := 0 }
  simp only [generateDailyMealPlan]
  rw [hfold]
  simp only [List.nil_append, zero_add]
  cases hpicks : (selectDayTemplate user (generatePersonalizationRules user)).kcal_distribution.filterMap
      (mealSlotResult recipes (generatePersonalizationRules user)
        ((calculateAllMetrics user af).kcal_range.target : ℚ)) with
  | nil =>
    constructor
    · simp only [List.map_nil, List.isEmpty_nil, if_true]
      constructor
      · intro _
        exact List.filterMap_eq_nil_iff.mp hpicks
      · intro _
        trivial
    · intro d hd
      simp at hd
  | cons p ps =>
    constructor
    · simp only [List.map_cons, List.isEmpty_cons, Bool.false_eq_true, if_false]
      constructor
      · intro h
        exact absurd h (by simp)
      · intro hall
        have h0 := List.filterMap_eq_nil_iff.mpr hall
        rw [hpicks] at h0
        exact absurd h0 (by simp)
    · intro d hd
      simp only [List.map_cons, List.isEmpty_cons, Bool.false_eq_true, if_false,
        Option.some.injEq] at hd
      subst hd
      refine ⟨by simp, ?_, ?_, ?_, ?_, ?_, ?_⟩ <;> simp

/-- Witness for C6: with an empty recipe catalog every slot is skipped and the
whole-day generation reports failure rather than a partial day. -/
theorem C6_witness :
    generateDailyMealPlan sampleUser [] "2025-01-06" 1.55 = none :=
  (C6_day_generation sampleUser [] "2025-01-06" 1.55).1.mpr (fun _ _ => rfl)

/-! ### Claims about weekly progress analysis (C3) -/

/-- On exactly two measurements a week apart with distinct weights, the weekly
change is the rounded percentage between them. -/
theorem weeklyChange_two_points (m1 m2 : Measurement) (hdate : m2.date = m1.date + 7)
    (hne : m2.weight_kg ≠ m1.weight_kg) :
    calculateWeeklyWeightChange [m1, m2] 1
      = jsRound1 ((m2.weight_kg - m1.weight_kg) / m1.weight_kg * 100) := by
  have hsorted : ([m1, m2] : List Measurement).mergeSort (fun a b => decide (a.date ≤ b.date))
      = [m1, m2] := by
    apply List.mergeSort_of_sorted
    refine List.Pairwise.cons ?_ (List.Pairwise.cons (fun a ha => absurd ha (by simp))
      List.Pairwise.nil)
    intro a ha
    simp only [List.mem_singleton] at ha
    subst ha
    simp only [decide_eq_true_eq, hdate]
    omega
  unfold calculateWeeklyWeightChange
  rw [if_neg (by simp), hsorted]
  simp only [List.getLastD_cons, List.getLastD_nil, List.foldl_cons, List.foldl_nil]
  have h1 : ¬(|m1.date - (m2.date - 1 * 7)| < |m1.date - (m2.date - 1 * 7)|) := lt_irrefl _
  rw [if_neg h1]
  have h2 : ¬(|m2.date - (m2.date - 1 * 7)| < |m1.date - (m2.date - 1 * 7)|) := by
    rw [hdate]
    have e1 : m1.date + 7 - (m1.date + 7 - 1 * 7) = 7 := by ring
    have e2 : m1.date - (m1.date + 7 - 1 * 7) = 0 := by ring
    rw [e1, e2]
    norm_num
  rw [if_neg h2, if_neg (fun h => hne h.symm)]

/-- C3 counterexample: two snapshots one week apart, weight dropping 2.86% (> 1%),
classify as fast_loss, but for a user whose goal weight is not below the current
weight no rapid-loss suggestion is emitted — the rule additionally requires
`goal_weight_kg < weight_kg`. -/
theorem C3_counterexample :
    (analyzeWeeklyProgress maintenanceUser [m1C3, m2C3] [] [] sampleRecords none 1.55).weight_trend
      = WeightTrend.fast_loss ∧
    ∀ s ∈ (analyzeWeeklyProgress maintenanceUser [m1C3, m2C3] [] [] sampleRecords none
        1.55).suggestions,
      s.rule_id ≠ "weight_loss_too_fast" := by
  have hch : calculateWeeklyWeightChange [m1C3, m2C3] 1 = -2.9 := by
    rw [weeklyChange_two_points m1C3 m2C3 (by norm_num [m1C3, m2C3]) (by norm_num [m1C3, m2C3])]
    show jsRound1 (((68 : ℚ) - 70) / 70 * 100) = -2.9
    unfold jsRound1 jsRound
    norm_num
  have htrend : ∀ c2 : ℚ, classifyWeightTrend (-2.9) c2 = WeightTrend.fast_loss := by
    intro c2
    unfold classifyWeightTrend
    rw [if_neg (by rintro ⟨h, -, -⟩; norm_num at h), if_pos (by norm_num)]
  simp only [analyzeWeeklyProgress, hch, htrend]
  constructor
  · trivial
  · intro s hs
    simp only [maintenanceUser, sampleUser] at hs
    norm_num [calculateMealPlanAdherence, calculateProteinCompliance,
      calculateAverageRPE, detectPerformanceImprovements] at hs
    subst hs
    decide

/-- C3 amended: for two snapshots one week apart whose raw weekly drop exceeds
1.05% (so the one-decimal-rounded change is strictly below −1%), and a user whose
goal weight is strictly below the current weight, `analyzeWeeklyProgress`
classifies the trend as fast_loss and its suggestions include the rapid-loss rule
`weight_loss_too_fast`. -/
theorem C3_rapid_loss (user : User) (mealPlans : List MealPlanDay)
    (workouts : List WorkoutPlanDay) (currentRecords : PersonalRecords)
    (previousRecords : Option PersonalRecords) (af : ℚ) (m1 m2 : Measurement)
    (hgoal : user.goal_weight_kg < user.weight_kg)
    (hdate : m2.date = m1.date + 7)
    (_hw1 : 0 < m1.weight_kg)
    (hdrop : (m2.weight_kg - m1.weight_kg) / m1.weight_kg * 100 < -1.05) :
    (analyzeWeeklyProgress user [m1, m2] mealPlans workouts currentRecords previousRecords
        af).weight_trend = WeightTrend.fast_loss ∧
    { rule_id := "weight_loss_too_fast", action_required := true, auto_applied := false
        : ProgressSuggestion } ∈
      (analyzeWeeklyProgress user [m1, m2] mealPlans workouts currentRecords previousRecords
        af).suggestions := by
  have hne : m2.weight_kg ≠ m1.weight_kg := by
    intro h
    rw [h] at hdrop
    simp at hdrop
    linarith
  have hch : calculateWeeklyWeightChange [m1, m2] 1 < -1 := by
    rw [weeklyChange_two_points m1 m2 hdate hne]
    unfold jsRound1 jsRound
    have hfl : ⌊(m2.weight_kg - m1.weight_kg) / m1.weight_kg * 100 * 10 + 1 / 2⌋ ≤ -11 := by
      have hlt : ((m2.weight_kg - m1.weight_kg) / m1.weight_kg * 100 * 10 + 1 / 2 : ℚ)
          < -10 := by nlinarith
      have := Int.floor_le_floor (α := ℚ) (le_of_lt hlt)
      have hlt2 : ⌊(m2.weight_kg - m1.weight_kg) / m1.weight_kg * 100 * 10 + 1 / 2⌋ < -10 :=
        Int.floor_lt.mpr (by exact_mod_cast hlt)
      omega
    have : ((⌊(m2.weight_kg - m1.weight_kg) / m1.weight_kg * 100 * 10 + 1 / 2⌋ : ℚ)) ≤ -11 := by
      exact_mod_cast hfl
    linarith
  have htrend : classifyWeightTrend (calculateWeeklyWeightChange [m1, m2] 1)
      (calculateWeeklyWeightChange [m1, m2] 2) = WeightTrend.fast_loss := by
    unfold classifyWeightTrend
    rw [if_neg (by rintro ⟨hc, -, -⟩; linarith), if_pos hch]
  simp only [analyzeWeeklyProgress, htrend]
  refine ⟨trivial, ?_⟩
  simp [hgoal]

/-- Witness for C3: the sample profile (goal 65 < weight 70) with a 2.86% weekly
drop receives the fast_loss classification and the rapid-loss suggestion. -/
theorem C3_witness :
    sampleUser.goal_weight_kg < sampleUser.weight_kg ∧
    m2C3.date = m1C3.date + 7 ∧ 0 < m1C3.weight_kg ∧
    (m2C3.weight_kg - m1C3.weight_kg) / m1C3.weight_kg * 100 < -1.05 ∧
    ((analyzeWeeklyProgress sampleUser [m1C3, m2C3] [] [] sampleRecords none
        1.55).weight_trend = WeightTrend.fast_loss ∧
      { rule_id := "weight_loss_too_fast", action_required := true, auto_applied := false
          : ProgressSuggestion } ∈
        (analyzeWeeklyProgress sampleUser [m1C3, m2C3] [] [] sampleRecords none
          1.55).suggestions) := by
  refine ⟨by norm_num [sampleUser], by norm_num [m1C3, m2C3], by norm_num [m1C3],
    by norm_num [m1C3, m2C3], ?_⟩
  exact C3_rapid_loss sampleUser [] [] sampleRecords none 1.55 m1C3 m2C3
    (by norm_num [sampleUser]) (by norm_num [m1C3, m2C3]) (by norm_num [m1C3])
    (by norm_num [m1C3, m2C3])

/-! ### Claims about workout progression (C7, C8) -/

/-- C7 counterexample: at intermediate level (intensity 1.0) and session number 3
(claimed compound multiplier 1.1) with a 20-push-up maximum, the code produces
14 reps — 70% of max times the intensity multiplier alone — while the claimed
compounded formula gives 15.  The per-session multiplier is computed but unused. -/
theorem C7_counterexample :
    (progressBlock sampleRecords FitnessLevel.intermediate 3 flexBlock).details
      = BlockDetails.strength { exercises := [{ flexExercise with reps := RepSpec.num 14 }] } ∧
    max 5 (jsRound ((20 : ℚ) * 0.7 * (intensityMultiplier FitnessLevel.intermediate
      * (1 + ((3 : ℚ) - 1) * 0.05)))) = 15 ∧
    RepSpec.num (14 : ℚ) ≠ RepSpec.num 15 := by
  have hflex : strIncludes (strLower "Flexiones") "flexion" = true := by decide
  have hpla : strIncludes (strLower "Flexiones") "plancha" = false := by decide
  have habs : strIncludes (strLower "Flexiones") "abdominal" = false := by decide
  refine ⟨?_, ?_, ?_⟩
  · have hmax : ((5 : ℚ) ⊔ ((jsRound ((20 : ℚ) * 0.7) : ℤ) : ℚ)) = 14 := by
      unfold jsRound
      norm_num [max_def]
    simp [progressBlock, progressBlockStrengthStep, progressBlockRunStep,
      progressBlockHiitStep, progressStrengthExercise, intensityMultiplier, flexBlock,
      flexExercise, sampleRecords, hflex, hpla, habs, hmax]
  · unfold jsRound intensityMultiplier
    norm_num [max_def]
  · intro h
    have : (14 : ℚ) = 15 := by injection h
    norm_num at this

/-- C7 amended: the per-block rescaling of `progressWorkout` is independent of
the session number (the 1 + 0.05·(n−1) multiplier is computed but never used)
and applies the fitness-level intensity multiplier alone: run speeds become
max(5, speed·im); interval work/rest become round(work·im) and round(rest/im);
push-up reps (name containing "flexion", numeric reps, no "abdominal" overwrite)
become max(5, round(0.7·pushups_max·im)); plank holds (name containing
"plancha", non-zero duration) become max(15, round(0.8·plank_sec·im)). -/
theorem C7_progression_intensity_only :
    (∀ (records : PersonalRecords) (lvl : FitnessLevel) (n m : ℚ) (block : TemplateBlock),
      progressBlock records lvl n block = progressBlock records lvl m block) ∧
    (∀ (records : PersonalRecords) (lvl : FitnessLevel) (n : ℚ) (nm : String) (dm : ℚ)
        (rd : RunDetails),
      progressBlock records lvl n
          { type := BlockType.run, name := nm, details := BlockDetails.run rd, duration_min := dm }
        = { type := BlockType.run, name := nm
            details := BlockDetails.run
              { rd with speed_kmh := max 5 (rd.speed_kmh * intensityMultiplier lvl) }
            duration_min := dm }) ∧
    (∀ (records : PersonalRecords) (lvl : FitnessLevel) (n : ℚ) (nm : String) (dm : ℚ)
        (hd : HIITDetails),
      progressBlock records lvl n
          { type := BlockType.hiit, name := nm, details := BlockDetails.hiit hd, duration_min := dm }
        = { type := BlockType.hiit, name := nm
            details := BlockDetails.hiit
              { hd with
                work_sec := ((jsRound (hd.work_sec * intensityMultiplier lvl) : ℤ) : ℚ)
                rest_sec := ((jsRound (hd.rest_sec / intensityMultiplier lvl) : ℤ) : ℚ) }
            duration_min := dm }) ∧
    (∀ (records : PersonalRecords) (im : ℚ) (nm : String) (sets r : ℚ) (w ds : Option ℚ)
        (rest : ℚ),
      strIncludes (strLower nm) "flexion" = true →
      strIncludes (strLower nm) "abdominal" = false →
      (progressStrengthExercise records im
          { name := nm, sets := sets, reps := RepSpec.num r, weight_kg := w
            duration_sec := ds, rest_sec := rest }).reps
        = RepSpec.num ((max 5 (jsRound (records.pushups_max * 0.7 * im)) : ℤ) : ℚ)) ∧
    (∀ (records : PersonalRecords) (im : ℚ) (nm : String) (sets : ℚ) (reps : RepSpec)
        (w : Option ℚ) (d : ℚ) (rest : ℚ),
      strIncludes (strLower nm) "plancha" = true →
      d ≠ 0 →
      (progressStrengthExercise records im
          { name := nm, sets := sets, reps := reps, weight_kg := w
            duration_sec := some d, rest_sec := rest }).duration_sec
        = some ((max 15 (jsRound (records.plank_sec * 0.8 * im)) : ℤ) : ℚ)) := by
  refine ⟨fun records lvl n m block => rfl, fun records lvl n nm dm rd => rfl,
    fun records lvl n nm dm hd => rfl, ?_, ?_⟩
  · intro records im nm sets r w ds rest hflex habs
    cases ds with
    | none => simp [progressStrengthExercise, hflex, habs]
    | some d =>
      by_cases hp : strIncludes (strLower nm) "plancha" = true
      · by_cases hd0 : d = 0
        · simp [progressStrengthExercise, hflex, habs, hp, hd0]
        · simp [progressStrengthExercise, hflex, habs, hp, hd0]
      · simp only [Bool.not_eq_true] at hp
        simp [progressStrengthExercise, hflex, habs, hp]
  · intro records im nm sets reps w d rest hpla hd0
    by_cases hf : strIncludes (strLower nm) "flexion" = true <;>
      by_cases ha : strIncludes (strLower nm) "abdominal" = true <;>
        cases reps <;>
          simp [progressStrengthExercise, hpla, hd0, hf, ha]

/-- Witness for C7: the amended push-up and plank equations at the sample
records and intensity 1. -/
theorem C7_witness :
    strIncludes (strLower "Flexiones") "flexion" = true ∧
    strIncludes (strLower "Flexiones") "abdominal" = false ∧
    (progressStrengthExercise sampleRecords 1
        { name := "Flexiones", sets := 3, reps := RepSpec.num 10, weight_kg := none
          duration_sec := none, rest_sec := 90 }).reps
      = RepSpec.num ((max 5 (jsRound (sampleRecords.pushups_max * 0.7 * 1)) : ℤ) : ℚ) ∧
    strIncludes (strLower "Plancha") "plancha" = true ∧ (45 : ℚ) ≠ 0 ∧
    (progressStrengthExercise sampleRecords 1
        { name := "Plancha", sets := 3, reps := RepSpec.time, weight_kg := none
          duration_sec := some 45, rest_sec := 60 }).duration_sec
      = some ((max 15 (jsRound (sampleRecords.plank_sec * 0.8 * 1)) : ℤ) : ℚ) :=
  ⟨by decide, by decide,
    C7_progression_intensity_only.2.2.2.1 sampleRecords 1 "Flexiones" 3 10 none none 90
      (by decide) (by decide),
    by decide, by norm_num,
    C7_progression_intensity_only.2.2.2.2 sampleRecords 1 "Plancha" 3 RepSpec.time none 45 60
      (by decide) (by norm_num)⟩

/-- Every template in the fixed catalog has a non-empty block list. -/
theorem workout_templates_blocks_ne_nil : ∀ t ∈ WORKOUT_TEMPLATES, t.blocks ≠ [] := by
  decide

/-- A successful `selectBestWorkout` returns a member of the supplied list. -/
theorem selectBestWorkout_mem (ts : List WorkoutTemplate) (lvl : FitnessLevel)
    (prefs : WorkoutPrefs) (t : WorkoutTemplate)
    (h : selectBestWorkout ts lvl prefs = some t) : t ∈ ts := by
  unfold selectBestWorkout at h
  split at h
  · exact absurd h (by simp)
  · split at h
    · obtain ⟨ys, hys⟩ := List.head?_eq_some_iff.mp h
      rw [hys]
      exact List.mem_cons_self _ _
    · cases hh : ((ts.filter fun t => t.fitness_level.contains lvl).map fun t =>
          ({ template := t, score := scoreWorkoutTemplate t prefs } : ScoredTemplate)).mergeSort
            (fun a b => decide (b.score ≤ a.score)) with
      | nil => rw [hh] at h; exact absurd h (by simp)
      | cons e es =>
        rw [hh] at h
        simp only [List.head?_cons, Option.some.injEq] at h
        subst h
        have he : e ∈ ((ts.filter fun t => t.fitness_level.contains lvl).map fun t =>
            ({ template := t, score := scoreWorkoutTemplate t prefs } : ScoredTemplate)) := by
          apply List.mem_mergeSort.mp
          rw [hh]
          exact List.mem_cons_self _ _
        obtain ⟨t0, ht0, hte⟩ := List.mem_map.mp he
        rw [← hte]
        exact List.mem_of_mem_filter ht0

/-- C8: whenever at least one template passes the equipment filter,
`generateWorkoutPlan` returns `null` without throwing: the per-block calorie
estimate inside `progressWorkout` reads an unbound `user`, the resulting
`ReferenceError` propagates to the `catch` handler, and no plan is produced. -/
theorem C8_generate_workout_null (user : User) (personalRecords : PersonalRecords)
    (date : ℤ) (preferences : Option WorkoutPrefs)
    (h : filterWorkoutsByEquipment WORKOUT_TEMPLATES user.equipment ≠ []) :
    generateWorkoutPlan user personalRecords date preferences = none := by
  have hne : (filterWorkoutsByEquipment WORKOUT_TEMPLATES user.equipment).isEmpty = false :=
    List.isEmpty_eq_false.mpr h
  simp only [generateWorkoutPlan, hne, Bool.false_eq_true, if_false]
  cases hsel : selectBestWorkout (filterWorkoutsByEquipment WORKOUT_TEMPLATES user.equipment)
      (evaluateFitnessLevel personalRecords user)
      ((preferences.getD
        { preferred_duration := none, preferred_type := none, avoid_high_impact := none })) with
  | none => rfl
  | some t =>
    have ht : t ∈ WORKOUT_TEMPLATES :=
      List.mem_of_mem_filter (selectBestWorkout_mem _ _ _ _ hsel)
    have hblocks : t.blocks ≠ [] := workout_templates_blocks_ne_nil t ht
    cases hb : t.blocks with
    | nil => exact absurd hb hblocks
    | cons b bs => simp [progressWorkout, hb]

/-- Witness for C8: with full equipment all five templates pass the filter and
the generator still produces no plan. -/
theorem C8_witness :
    filterWorkoutsByEquipment WORKOUT_TEMPLATES gymUser.equipment ≠ [] ∧
    generateWorkoutPlan gymUser sampleRecords 10 none = none :=
  ⟨by decide,
    C8_generate_workout_null gymUser sampleRecords 10 none (by decide)⟩

/-! ### Claims about the shopping list (C9) -/

theorem availableStores_ne_nil (user : User) : availableStores user ≠ [] := by
  unfold availableStores
  split <;> simp

theorem chooseStoreStep_isSome (c : ℚ) (food : FoodItem) (g : ℚ) (u : User) (m : ℤ)
    (acc : BestChoice) (sk : StoreKey) :
    ((chooseStoreStep c food g u m acc sk).bestPrice).isSome = true := by
  unfold chooseStoreStep
  cases h : acc.bestPrice with
  | none => simp [h]
  | some bp =>
    simp only [h]
    split <;> simp [h]

theorem foldChoose_isSome (c : ℚ) (food : FoodItem) (g : ℚ) (u : User) (m : ℤ) :
    ∀ (stores : List StoreKey) (acc : BestChoice), acc.bestPrice.isSome = true →
      (((stores.foldl (chooseStoreStep c food g u m) acc)).bestPrice).isSome = true := by
  intro stores
  induction stores with
  | nil => intro acc h; simpa using h
  | cons s rest ih =>
    intro acc _
    simp only [List.foldl_cons]
    exact ih _ (chooseStoreStep_isSome c food g u m acc s)

theorem chooseBestStore_isSome (c : ℚ) (food : FoodItem) (g : ℚ) (u : User) (m : ℤ)
    (stores : List StoreKey) (h : stores ≠ []) :
    ((chooseBestStore stores c food g u m).bestPrice).isSome = true := by
  cases stores with
  | nil => exact absurd rfl h
  | cons s rest =>
    unfold chooseBestStore
    simp only [List.foldl_cons]
    exact foldChoose_isSome c food g u m rest _
      (chooseStoreStep_isSome c food g u m _ s)

/-- One store-loop step either takes the new store's strictly better price or
keeps a running best that is at most the new store's price. -/
theorem chooseStoreStep_cases (c : ℚ) (food : FoodItem) (g : ℚ) (u : User) (m : ℤ)
    (acc : BestChoice) (sk : StoreKey) :
    ((chooseStoreStep c food g u m acc sk).bestPrice
        = some (calculateDiscountedPrice c food g (STORE_CONFIGS sk) u m).final_price ∧
      ∀ bp0, acc.bestPrice = some bp0 →
        (calculateDiscountedPrice c food g (STORE_CONFIGS sk) u m).final_price < bp0) ∨
    (chooseStoreStep c food g u m acc sk = acc ∧
      ∃ bp0, acc.bestPrice = some bp0 ∧
        bp0 ≤ (calculateDiscountedPrice c food g (STORE_CONFIGS sk) u m).final_price) := by
  unfold chooseStoreStep
  cases h : acc.bestPrice with
  | none =>
    left
    constructor
    · simp
    · intro bp0 hbp0
      exact absurd hbp0 (by simp)
  | some bp0 =>
    simp only [h]
    by_cases hlt : (calculateDiscountedPrice c food g (STORE_CONFIGS sk) u m).final_price < bp0
    · left
      constructor
      · simp [hlt]
      · intro bp1 hbp1
        injection hbp1 with hh
        rw [← hh]
        exact hlt
    · right
      constructor
      · simp [hlt]
      · exact ⟨bp0, rfl, by omega⟩

/-- The store loop's final best price is a lower bound over every processed
store and over any initial best. -/
theorem foldChoose_le (c : ℚ) (food : FoodItem) (g : ℚ) (u : User) (m : ℤ) :
    ∀ (stores : List StoreKey) (acc : BestChoice) (bp : ℤ),
      ((stores.foldl (chooseStoreStep c food g u m) acc)).bestPrice = some bp →
      (∀ sk ∈ stores,
        bp ≤ (calculateDiscountedPrice c food g (STORE_CONFIGS sk) u m).final_price) ∧
      (∀ ap, acc.bestPrice = some ap → bp ≤ ap) := by
  intro stores
  induction stores with
  | nil =>
    intro acc bp h
    simp only [List.foldl_nil] at h
    refine ⟨fun sk hsk => absurd hsk (List.not_mem_nil sk), fun ap hap => ?_⟩
    rw [h] at hap
    injection hap with hh
    omega
  | cons s rest ih =>
    intro acc bp h
    simp only [List.foldl_cons] at h
    obtain ⟨hrest, hstep⟩ := ih (chooseStoreStep c food g u m acc s) bp h
    have hs : bp ≤ (calculateDiscountedPrice c food g (STORE_CONFIGS s) u m).final_price := by
      rcases chooseStoreStep_cases c food g u m acc s with ⟨hsp, -⟩ | ⟨heq, bp0, hbp0, hle⟩
      · exact hstep _ hsp
      · exact le_trans (hstep bp0 (by rw [heq]; exact hbp0)) hle
    refine ⟨?_, ?_⟩
    · intro sk hsk
      rcases List.mem_cons.mp hsk with rfl | hsk'
      · exact hs
      · exact hrest sk hsk'
    · intro ap hap
      rcases chooseStoreStep_cases c food g u m acc s with ⟨hsp, hlt⟩ | ⟨heq, bp0, hbp0, hle⟩
      · exact le_of_lt (lt_of_le_of_lt (hstep _ hsp) (hlt ap hap))
      · have : bp0 = ap := by rw [hbp0] at hap; injection hap
        rw [← this]
        exact hstep bp0 (by rw [heq]; exact hbp0)

/-- The assignment loop accumulates exactly the per-item best prices and
savings. -/
theorem optimize_items_fold (foodItems : List FoodItem) (user : User) (month : ℤ) :
    ∀ (cons : List ConsolidatedIngredient) (st : OptState),
      (cons.foldl (optimizeItemsStep foodItems user month) st).total_cost
        = st.total_cost
          + ((cons.filterMap (itemBest foodItems user month)).map
              fun ch => ch.bestPrice.getD 0).sum ∧
      (cons.foldl (optimizeItemsStep foodItems user month) st).total_savings
        = st.total_savings
          + ((cons.filterMap (itemBest foodItems user month)).map
              fun ch => ch.bestSavings).sum := by
  intro cons
  induction cons with
  | nil => intro st; simp
  | cons ing rest ih =>
    intro st
    simp only [List.foldl_cons, List.filterMap_cons]
    cases hbest : itemBest foodItems user month ing with
    | none =>
      simp only [optimizeItemsStep, hbest]
      exact ih st
    | some choice =>
      have hsome : choice.bestPrice.isSome = true := by
        unfold itemBest at hbest
        rcases hfind : foodItems.find? fun f => f.id == ing.food_id with _ | ⟨food⟩
        · rw [hfind] at hbest; exact absurd hbest (by simp)
        · rw [hfind] at hbest
          dsimp only at hbest
          rcases hck : food.cost_per_kg with _ | ⟨c⟩
          · rw [hck] at hbest; exact absurd hbest (by simp)
          · rw [hck] at hbest
            dsimp only at hbest
            by_cases hc0 : c = 0
            · rw [if_pos hc0] at hbest; exact absurd hbest (by simp)
            · rw [if_neg hc0] at hbest
              injection hbest with hh
              rw [← hh]
              exact chooseBestStore_isSome c food ing.total_grams user month _
                (availableStores_ne_nil user)
      rcases hbp : choice.bestPrice with _ | ⟨bp⟩
      · rw [hbp] at hsome; exact absurd hsome (by simp)
      · simp only [optimizeItemsStep, hbest, hbp]
        obtain ⟨h1, h2⟩ := ih
          { distribution := addToStore st.distribution choice.bestStore ing
            cost_breakdown := addCost st.cost_breakdown choice.bestStore bp
            total_cost := st.total_cost + bp
            total_savings := st.total_savings + choice.bestSavings }
        constructor
        · rw [h1]
          simp [hbp, add_assoc]
        · rw [h2]
          simp [add_assoc]

/-- The delivery pass adds exactly the flat delivery costs of stores holding
items, and changes neither savings nor the distribution. -/
theorem delivery_fold :
    ∀ (entries : List (StoreKey × List ConsolidatedIngredient)) (st : OptState),
      (entries.foldl deliveryStep st).total_cost = st.total_cost + deliveryTotal entries ∧
      (entries.foldl deliveryStep st).total_savings = st.total_savings ∧
      (entries.foldl deliveryStep st).distribution = st.distribution := by
  intro entries
  induction entries with
  | nil => intro st; simp [deliveryTotal]
  | cons e rest ih =>
    intro st
    simp only [List.foldl_cons]
    by_cases hne : e.2 ≠ []
    · rcases hdc : (STORE_CONFIGS e.1).delivery_cost with _ | ⟨dc⟩
      · have hstep : deliveryStep st e = st := by simp [deliveryStep, hne, hdc]
        rw [hstep]
        obtain ⟨h1, h2, h3⟩ := ih st
        refine ⟨?_, h2, h3⟩
        rw [h1]
        simp [deliveryTotal, List.filterMap_cons, hne, hdc]
      · by_cases hdc0 : dc = 0
        · have hstep : deliveryStep st e = st := by simp [deliveryStep, hne, hdc, hdc0]
          rw [hstep]
          obtain ⟨h1, h2, h3⟩ := ih st
          refine ⟨?_, h2, h3⟩
          rw [h1]
          simp [deliveryTotal, List.filterMap_cons, hne, hdc, hdc0]
        · have hstep : deliveryStep st e
              = { st with
                  cost_breakdown := addCost st.cost_breakdown e.1 dc
                  total_cost := st.total_cost + dc } := by
            simp [deliveryStep, hne, hdc, hdc0]
          rw [hstep]
          obtain ⟨h1, h2, h3⟩ := ih
            { st with
              cost_breakdown := addCost st.cost_breakdown e.1 dc
              total_cost := st.total_cost + dc }
          refine ⟨?_, h2, h3⟩
          rw [h1]
          simp [deliveryTotal, List.filterMap_cons, hne, hdc, hdc0, add_assoc]
    · have hstep : deliveryStep st e = st := by simp [deliveryStep, hne]
      rw [hstep]
      obtain ⟨h1, h2, h3⟩ := ih st
      refine ⟨?_, h2, h3⟩
      rw [h1]
      have he : e.2 = [] := by
        by_contra hcon
        exact hne hcon
      simp [deliveryTotal, List.filterMap_cons, he]

/-- C9: the optimization's total cost is the sum over assigned (priced)
ingredients of their final price at the assigned store plus the flat delivery
cost of every store that received at least one item and defines a non-zero one;
total savings is the sum of (original − final) at the assigned store; each
priced ingredient's assigned price is minimal over all available stores; and
the generated weekly shopping list's total cost estimate is exactly the
optimization total. -/
theorem C9_shopping_cost_and_savings (user : User) (cons : List ConsolidatedIngredient)
    (foodItems : List FoodItem) (month : ℤ) (mealPlans : List MealPlanDay)
    (recipes : List Recipe) (weekStart : String) :
    (optimizeStoreDistribution cons foodItems user month).total_cost
      = ((cons.filterMap (itemBest foodItems user month)).map
          fun ch => ch.bestPrice.getD 0).sum
        + deliveryTotal (optimizeStoreDistribution cons foodItems user month).distribution ∧
    (optimizeStoreDistribution cons foodItems user month).total_savings
      = ((cons.filterMap (itemBest foodItems user month)).map fun ch => ch.bestSavings).sum ∧
    (∀ ing ∈ cons, ∀ food, (foodItems.find? fun f => f.id == ing.food_id) = some food →
      ∀ c, food.cost_per_kg = some c → c ≠ 0 →
      ∃ bp, itemBest foodItems user month ing
          = some (chooseBestStore (availableStores user) c food ing.total_grams user month) ∧
        (chooseBestStore (availableStores user) c food ing.total_grams user month).bestPrice
          = some bp ∧
        ∀ sk ∈ availableStores user,
          bp ≤ (calculateDiscountedPrice c food ing.total_grams (STORE_CONFIGS sk) user
            month).final_price) ∧
    (generateWeeklyShoppingList user mealPlans recipes foodItems weekStart
        month).total_cost_estimate
      = some (optimizeStoreDistribution (consolidateIngredients mealPlans recipes) foodItems
          user month).total_cost := by
  set A := cons.foldl (optimizeItemsStep foodItems user month)
    { distribution := (availableStores user).map fun s => (s, [])
      cost_breakdown := (availableStores user).map fun s => (s, 0)
      total_cost := 0, total_savings := 0 } with hA
  obtain ⟨hc, hs⟩ := optimize_items_fold foodItems user month cons
    { distribution := (availableStores user).map fun s => (s, [])
      cost_breakdown := (availableStores user).map fun s => (s, 0)
      total_cost := 0, total_savings := 0 }
  obtain ⟨hd1, hd2, hd3⟩ := delivery_fold A.distribution A
  have hopt_cost : (optimizeStoreDistribution cons foodItems user month).total_cost
      = A.total_cost + deliveryTotal A.distribution := hd1
  have hopt_sav : (optimizeStoreDistribution cons foodItems user month).total_savings
      = A.total_savings := hd2
  have hopt_dist : (optimizeStoreDistribution cons foodItems user month).distribution
      = A.distribution := hd3
  refine ⟨?_, ?_, ?_, rfl⟩
  · rw [hopt_cost, hopt_dist, ← hA] at *
    rw [hc]
    simp
  · rw [hopt_sav, ← hA] at *
    rw [hs]
    simp
  · intro ing _ food hfind c hck hc0
    have hib : itemBest foodItems user month ing
        = some (chooseBestStore (availableStores user) c food ing.total_grams user month) := by
      unfold itemBest
      rw [hfind]
      dsimp only
      rw [hck]
      dsimp only
      rw [if_neg hc0]
    have hsome := chooseBestStore_isSome c food ing.total_grams user month
      (availableStores user) (availableStores_ne_nil user)
    obtain ⟨bp, hbp⟩ := Option.isSome_iff_exists.mp hsome
    refine ⟨bp, hib, hbp, ?_⟩
    intro sk hsk
    have hbp' : (((availableStores user).foldl
        (chooseStoreStep c food ing.total_grams user month)
        { bestStore := StoreKey.market, bestPrice := none, bestSavings := 0 })).bestPrice
        = some bp := hbp
    exact (foldChoose_le c food ing.total_grams user month (availableStores user) _ bp
      hbp').1 sk hsk

/-- Witness for C9: the spec scenario (1200 g chicken breast at 6000/kg for a
low-budget user) — its assigned price is minimal over all three stores. -/
theorem C9_witness :
    chickenIngredient ∈ [chickenIngredient] ∧
    ([chickenFood].find? fun f => f.id == chickenIngredient.food_id) = some chickenFood ∧
    chickenFood.cost_per_kg = some 6000 ∧ (6000 : ℚ) ≠ 0 ∧
    (∃ bp, itemBest [chickenFood] lowBudgetUser 5 chickenIngredient
        = some (chooseBestStore (availableStores lowBudgetUser) 6000 chickenFood
            chickenIngredient.total_grams lowBudgetUser 5) ∧
      (chooseBestStore (availableStores lowBudgetUser) 6000 chickenFood
          chickenIngredient.total_grams lowBudgetUser 5).bestPrice = some bp ∧
      ∀ sk ∈ availableStores lowBudgetUser,
        bp ≤ (calculateDiscountedPrice 6000 chickenFood chickenIngredient.total_grams
          (STORE_CONFIGS sk) lowBudgetUser 5).final_price) := by
  refine ⟨List.mem_cons_self _ _, rfl, rfl, by norm_num, ?_⟩
  exact (C9_shopping_cost_and_savings lowBudgetUser [chickenIngredient] [chickenFood] 5
    [] [] "2025-01-06").2.2.1 chickenIngredient (List.mem_cons_self _ _) chickenFood rfl
    6000 rfl (by norm_num)

/-- Witness for C10 at calorie target 2000, goal weight 70 kg, medium protein:
carbs_g = 273 > 0 and the energy of the split is within 4 kcal of 2000. -/
theorem C10_witness :
    0 < (calculateMacros 2000 70 ProteinPref.medium).carbs_g ∧
    |((calculateMacros 2000 70 ProteinPref.medium).protein_g : ℚ) * 4
      + ((calculateMacros 2000 70 ProteinPref.medium).fat_g : ℚ) * 9
      + ((calculateMacros 2000 70 ProteinPref.medium).carbs_g : ℚ) * 4 - 2000| ≤ 4 := by
  have hpos : 0 < (calculateMacros 2000 70 ProteinPref.medium).carbs_g := by
    show 0 < max 0 (jsRound ((2000 - (jsRound ((70 : ℚ) * ((1.6 + 2.2) / 2)) : ℚ) * 4
      - (jsRound ((70 : ℚ) * 0.6) : ℚ) * 9) / 4))
    unfold jsRound
    norm_num
  exact ⟨hpos, (C10_macro_energy_consistency 2000 70 ProteinPref.medium).2.2 hpos⟩

end MuscleMan
